import Mathlib

/-!
# ANTC Hub webhook server (`server.js`): key registry and Discord relay

A shallow embedding of the request handlers of `server.js`.

Modelling conventions
* `Date.now()` is a natural number of milliseconds; every handler invocation
  receives its own clock reading.
* JavaScript numbers are IEEE 754 binary64 values: a finite value is kept as
  the rational number it denotes, and `*` and `+` round the exact result to
  the nearest double, ties to even. The sign of zero is not tracked (no
  handler divides by a computed value or prints one).
* A request property that a handler only converts is given by the result of
  the conversion: `duration` by its `ToNumber` value, a `tier` that is not a
  string by the string a template literal prints for it.
* The two `Map` objects `validKeys` and `keyExpiry` are association lists in
  insertion order with `Map.prototype.set` / `Map.prototype.get` semantics.
* `Math.random()` is an input of the handler: the list of base-36 digits of
  its fractional part as printed by `toString(36)`.
* `axios.post` is an input of the relay: a function that says whether the
  outbound POST succeeds or throws.
-/

namespace AntcHub

/-! ## JavaScript numbers -/

/-- A JavaScript number: a finite double (the rational it denotes), an
infinity, or `NaN`. -/
inductive JsNum where
  | fin (q : ℚ)
  | posInf
  | negInf
  | nan
  deriving DecidableEq, Repr

/-- Rounding of a non-negative rational to the nearest natural number, ties to
the even one. -/
def roundHalfEven (x : ℚ) : ℕ :=
  let f := ⌊x⌋₊
  if x - f < 1 / 2 then f
  else if 1 / 2 < x - f then f + 1
  else if f % 2 = 0 then f else f + 1

/-- The exponent `e` with `2 ^ e ≤ a < 2 ^ (e + 1)`, for a positive rational:
the difference of the bit lengths of numerator and denominator, or one
less. -/
def floorLog2 (a : ℚ) : ℤ :=
  let e : ℤ := (Nat.log2 a.num.natAbs : ℤ) - (Nat.log2 a.den : ℤ)
  if (2 : ℚ) ^ e ≤ a then e else e - 1

/-- The double nearest to a rational (round to nearest, ties to even): 53
significant bits, least exponent `-1074`, overflow to an infinity from
`2 ^ 1024` on. An integer of magnitude at most `2 ^ 53` is a double. -/
def roundDouble (q : ℚ) : JsNum :=
  if q.den = 1 ∧ q.num.natAbs ≤ 2 ^ 53 then .fin q
  else
    let a := |q|
    let u : ℤ := max (floorLog2 a - 52) (-1074)
    let m : ℚ := (roundHalfEven (a / 2 ^ u) : ℚ) * 2 ^ u
    if (2 : ℚ) ^ (1024 : ℕ) ≤ m then (if q < 0 then .negInf else .posInf)
    else .fin (if q < 0 then -m else m)

/-- An infinity times a finite number: `NaN` for zero, else the infinity with
the product's sign. `positive` is the sign of the infinity. -/
def JsNum.scaleInf (positive : Bool) (a : ℚ) : JsNum :=
  if a = 0 then .nan
  else if decide (0 < a) = positive then .posInf else .negInf

/-- The JavaScript `*` on numbers. -/
def JsNum.mul : JsNum → JsNum → JsNum
  | .fin a, .fin b => roundDouble (a * b)
  | .fin a, .posInf => JsNum.scaleInf true a
  | .fin a, .negInf => JsNum.scaleInf false a
  | .posInf, .fin b => JsNum.scaleInf true b
  | .negInf, .fin b => JsNum.scaleInf false b
  | .posInf, .posInf => .posInf
  | .negInf, .negInf => .posInf
  | .posInf, .negInf => .negInf
  | .negInf, .posInf => .negInf
  | .nan, _ => .nan
  | _, .nan => .nan

/-- The JavaScript `+` on numbers. -/
def JsNum.add : JsNum → JsNum → JsNum
  | .fin a, .fin b => roundDouble (a + b)
  | .fin _, .posInf => .posInf
  | .fin _, .negInf => .negInf
  | .posInf, .fin _ => .posInf
  | .negInf, .fin _ => .negInf
  | .posInf, .posInf => .posInf
  | .negInf, .negInf => .negInf
  | .posInf, .negInf => .nan
  | .negInf, .posInf => .nan
  | .nan, _ => .nan
  | _, .nan => .nan

/-- The JavaScript `>` on numbers; false when an operand is `NaN`. -/
def JsNum.gt : JsNum → JsNum → Bool
  | .fin a, .fin b => decide (b < a)
  | .fin _, .negInf => true
  | .posInf, .fin _ => true
  | .posInf, .negInf => true
  | _, _ => false

/-- A reading of `Date.now()` as a number. -/
def JsNum.ofNat (n : ℕ) : JsNum := roundDouble n

/-- Truthiness of a number that may be absent (`expiryTime && ...`,
`expiryTime ? ... : ...`): `undefined`, `0` and `NaN` are falsy. -/
def truthyNum : Option JsNum → Bool
  | none => false
  | some (.fin q) => q != 0
  | some .nan => false
  | some _ => true

/-! ## JavaScript values that reach the handlers -/

/-- A JSON value of a request body, as far as the verify handler inspects it:
it only tests a number for being zero. `obj` stands for any object or
array. -/
inductive JsVal where
  | undefined
  | null
  | bool (b : Bool)
  | num (n : Int)
  | str (s : String)
  | obj
  deriving DecidableEq, Repr

/-- JavaScript truthiness (`!key` is the negation of this). -/
def JsVal.truthy : JsVal → Bool
  | .undefined => false
  | .null => false
  | .bool b => b
  | .num n => n != 0
  | .str s => s != ""
  | .obj => true

/-- The `tier` of a key. The generate-key handler prints it into the key with
a template literal, compares it with `===` to the two lifetime labels, and
stores and returns it unchanged. A value that is not a string (`null`, a
boolean, a number, an array, an object) is never `===` to a label and is kept
as the string the template literal prints for it: `null` for `null`, `5` for
`5`, `DEVELOPER` for the array `['DEVELOPER']`. -/
inductive Tier where
  | str (s : String)
  | nonString (printed : String)
  deriving DecidableEq, Repr

/-- What the template literal prints for a tier. -/
def Tier.print : Tier → String
  | .str s => s
  | .nonString printed => printed

/-! ## `Map` -/

/-- `Map.prototype.get` on a map with string keys. -/
def mapGet {α : Type} : List (String × α) → String → Option α
  | [], _ => none
  | (k', v') :: rest, k => if k' = k then some v' else mapGet rest k

/-- `Map.prototype.set`: overwrite in place when the key exists, append
otherwise. -/
def mapSet {α : Type} : List (String × α) → String → α → List (String × α)
  | [], k, v => [(k, v)]
  | (k', v') :: rest, k, v =>
    if k' = k then (k', v) :: rest else (k', v') :: mapSet rest k v

/-- `Map.prototype.get` with an arbitrary JSON value as the argument. All keys
ever stored are strings and `get` compares with SameValueZero, so a value that
is not a string is never found. -/
def mapGetVal {α : Type} (m : List (String × α)) : JsVal → Option α
  | .str s => mapGet m s
  | _ => none

/-! ## Data model -/

/-- The `validFor` property of a key record: absent, `null`, or a number of
seconds. -/
inductive ValidFor where
  | undefined
  | null
  | secs (n : JsNum)
  deriving DecidableEq, Repr

/-- `ToNumber` of a `validFor` property, as `data.validFor * 1000` applies
it. -/
def ValidFor.toNumber : ValidFor → JsNum
  | .undefined => .nan
  | .null => .fin 0
  | .secs n => n

/-- A value of `validKeys`. -/
structure KeyData where
  tier : Tier
  isLifetime : Bool
  validFor : ValidFor
  deriving DecidableEq, Repr

/-- The two module-level maps. -/
structure Registry where
  validKeys : List (String × KeyData)
  keyExpiry : List (String × JsNum)
  deriving DecidableEq, Repr

/-- `DEFAULT_KEYS`. -/
def DEFAULT_KEYS : List (String × KeyData) :=
  [ ("DEVELOPER-LIFETIME-2025", ⟨.str "DEVELOPER", true, .undefined⟩),
    ("PREMIUM-30DAYS", ⟨.str "PREMIUM", false, .secs (.fin (30 * 24 * 60 * 60))⟩),
    ("BASIC-11H", ⟨.str "BASIC", false, .secs (.fin (11 * 60 * 60))⟩) ]

/-- One iteration of the seeding `forEach`. `now` is the `Date.now()` reading
of this iteration. -/
def seedEntry (now : Nat) (reg : Registry) (key : String) (data : KeyData) : Registry :=
  let validKeys := mapSet reg.validKeys key data
  if !data.isLifetime then
    ⟨validKeys, mapSet reg.keyExpiry key
      (JsNum.add (JsNum.ofNat now) (JsNum.mul data.validFor.toNumber (.fin 1000)))⟩
  else
    ⟨validKeys, reg.keyExpiry⟩

/-- Module initialisation: `Object.entries(DEFAULT_KEYS).forEach(...)` on the
empty maps. `clock key` is the `Date.now()` reading taken while seeding
`key`. -/
def bootstrap (clock : String → Nat) : Registry :=
  DEFAULT_KEYS.foldl (fun reg e => seedEntry (clock e.1) reg e.1 e.2) ⟨[], []⟩

/-! ## `POST /webhook/verify` -/

/-- The `expiresAt` property of a successful verification: `null`, or the
number `ms / 1000`, or `NaN` (`undefined / 1000`). -/
inductive VerifyExpiresAt where
  | null
  | msOver1000 (ms : JsNum)
  | nan
  deriving DecidableEq, Repr

/-- The JSON body sent by the verify handler. -/
inductive VerifyBody where
  | invalid (message : String)
  | valid (tier : Tier) (isLifetime : Bool) (validFor : ValidFor)
      (expiresAt : VerifyExpiresAt)
  deriving DecidableEq, Repr

/-- An HTTP response: status code and JSON body. -/
structure Response (β : Type) where
  status : Nat
  body : β
  deriving DecidableEq, Repr

/-- The handler of `POST /webhook/verify`, for a request body whose `key`
property is `key`, run at `Date.now() = now`. Nothing in the `try` block
throws, so the `catch` branch (status 500) is never taken. -/
def verify (reg : Registry) (now : Nat) (key : JsVal) : Response VerifyBody :=
  if !key.truthy then
    ⟨200, .invalid "Key tidak ditemukan"⟩
  else
    match mapGetVal reg.validKeys key with
    | none => ⟨200, .invalid "Key tidak valid atau tidak ditemukan"⟩
    | some keyData =>
      let expiryTime := mapGetVal reg.keyExpiry key
      if !keyData.isLifetime &&
          (truthyNum expiryTime && JsNum.gt (JsNum.ofNat now) (expiryTime.getD .nan)) then
        ⟨200, .invalid "Key sudah kadaluarsa"⟩
      else
        ⟨200, .valid keyData.tier keyData.isLifetime keyData.validFor
          (if keyData.isLifetime then .null
           else match expiryTime with
             | some e => .msOver1000 e
             | none => .nan)⟩

/-! ## `POST /webhook/generate-key` -/

/-- The digits `0-9A-Z` of an upper-cased base-36 numeral. -/
def base36Upper : List Char := "0123456789ABCDEFGHIJKLMNOPQRSTUVWXYZ".toList

/-- `Math.random().toString(36).substring(2, 15).toUpperCase()`, where `rnd`
lists the base-36 digits that `toString(36)` prints after `"0."` (none when
`Math.random()` is `0`). -/
def keyIdOf (rnd : List (Fin 36)) : String :=
  String.mk ((rnd.take 13).map (fun d => base36Upper.getD d.val '0'))

/-- The body of a key-generation request: `tier` and `duration`, each possibly
absent (`undefined`). A `duration` that is present is given by its `ToNumber`
value, which is all the handler uses: `0` for `null`, `NaN` for `'abc'`. -/
structure GenerateBody where
  tier : Option Tier
  duration : Option JsNum
  deriving DecidableEq, Repr

/-- The JSON body sent by the generate-key handler on success. -/
structure GenerateResult where
  success : Bool
  key : String
  tier : Tier
  isLifetime : Bool
  validFor : ValidFor
  deriving DecidableEq, Repr

/-- `tier === 'DEVELOPER' || tier === 'LIFETIME'`. -/
def isLifetimeTier : Tier → Bool
  | .str s => s = "DEVELOPER" || s = "LIFETIME"
  | .nonString _ => false

/-- The handler of `POST /webhook/generate-key`, run at `Date.now() = now`
with `Math.random()` printing the digits `rnd`. Returns the new registry and
the response. -/
def generateKey (reg : Registry) (now : Nat) (body : GenerateBody) (rnd : List (Fin 36)) :
    Registry × Response GenerateResult :=
  let tier := body.tier.getD (.str "BASIC")
  let duration := body.duration.getD (.fin 11)
  let keyId := keyIdOf rnd
  let newKey := tier.print ++ "-" ++ keyId
  let isLifetime := isLifetimeTier tier
  let seconds := JsNum.mul (JsNum.mul duration (.fin 60)) (.fin 60)
  let validFor : ValidFor := if isLifetime then .null else .secs seconds
  let keyData : KeyData := ⟨tier, isLifetime, validFor⟩
  let validKeys := mapSet reg.validKeys newKey keyData
  let keyExpiry :=
    if !isLifetime then
      mapSet reg.keyExpiry newKey (JsNum.add (JsNum.ofNat now) (JsNum.mul seconds (.fin 1000)))
    else reg.keyExpiry
  (⟨validKeys, keyExpiry⟩, ⟨200, ⟨true, newKey, tier, isLifetime, validFor⟩⟩)

/-! ## `GET /webhook/keys` -/

/-- The largest time value of a `Date` (ECMAScript `TimeClip`). -/
def maxTimeValue : ℚ := 8640000000000000

/-- The `expiresAt` property of a listed key: the string `'Never'`, or the
ISO-8601 rendering of a time value (kept as the time value it renders). -/
inductive ListExpiresAt where
  | never
  | iso (ms : Int)
  deriving DecidableEq, Repr

/-- `new Date(t).toISOString()`: `TimeClip` truncates a finite `t` within the
range of time values towards zero; for any other `t` the date is invalid and
`toISOString` throws a `RangeError`. -/
def toISOString : JsNum → Except String ListExpiresAt
  | .fin q =>
    if -maxTimeValue ≤ q ∧ q ≤ maxTimeValue then
      .ok (.iso (if 0 ≤ q then ⌊q⌋ else ⌈q⌉))
    else .error "RangeError: Invalid time value"
  | _ => .error "RangeError: Invalid time value"

/-- An element of the `keys` array of the listing. -/
structure KeyView where
  key : String
  tier : Tier
  isLifetime : Bool
  expiresAt : ListExpiresAt
  isExpired : Bool
  deriving DecidableEq, Repr

/-- The body of the `validKeys.forEach` callback of the listing. -/
def keyView (reg : Registry) (now : Nat) (key : String) (data : KeyData) :
    Except String KeyView :=
  let expiryTime := mapGet reg.keyExpiry key
  if truthyNum expiryTime then
    match toISOString (expiryTime.getD .nan) with
    | .ok expiresAt =>
      .ok ⟨key, data.tier, data.isLifetime, expiresAt,
        JsNum.gt (JsNum.ofNat now) (expiryTime.getD .nan)⟩
    | .error e => .error e
  else
    .ok ⟨key, data.tier, data.isLifetime, .never, false⟩

/-- The handler of `GET /webhook/keys` at `Date.now() = now`: the `keys` array
of the response, or the exception that escapes the handler (which has no
`try` block). -/
def listKeys (reg : Registry) (now : Nat) : Except String (List KeyView) :=
  reg.validKeys.mapM (fun e => keyView reg now e.1 e.2)

/-! ## The registry as a state machine -/

/-- A request to one of the three registry endpoints, together with the
readings of `Date.now()` and `Math.random()` its handler takes. -/
inductive Request where
  | verify (now : Nat) (key : JsVal)
  | generateKey (now : Nat) (body : GenerateBody) (rnd : List (Fin 36))
  | keys (now : Nat)

/-- The registry after a request has been handled. -/
def handle (reg : Registry) : Request → Registry
  | .verify _ _ => reg
  | .generateKey now body rnd => (generateKey reg now body rnd).1
  | .keys _ => reg

/-- The registries the server can be in: the bootstrap registry followed by
any sequence of requests. -/
def Reachable (reg : Registry) : Prop :=
  ∃ (clock : String → Nat) (reqs : List Request), reg = reqs.foldl handle (bootstrap clock)

/-! ## Discord relay -/

/-- A thrown `Error`: its `message` and its `code` property, if any. -/
structure JsError where
  message : String
  code : Option String
  deriving DecidableEq, Repr

/-- `DISCORD_WEBHOOKS`: each entry is an environment variable, a string or
`undefined`. -/
structure DiscordWebhooks where
  keyTracking : Option String
  developerActivity : Option String
  allActivity : Option String
  deriving DecidableEq, Repr

/-- `!webhookUrl` for an environment variable: `undefined` and `''`. -/
def urlMissing : Option String → Bool
  | none => true
  | some u => u = ""

/-- `sendToDiscord(webhookUrl, data)`. `post url data` is what
`axios.post(url, data, ...)` does: return, or throw. The result is the list of
outbound POSTs performed and the outcome. -/
def sendToDiscord {Payload : Type} (post : String → Payload → Except JsError Unit)
    (webhookUrl : Option String) (data : Payload) :
    List (String × Payload) × Except JsError Unit :=
  if urlMissing webhookUrl then
    ([], .error ⟨"Discord webhook URL not configured", some "WEBHOOK_NOT_CONFIGURED"⟩)
  else
    let url := webhookUrl.getD ""
    ([(url, data)], post url data)

/-- The JSON body sent by a forwarding handler. -/
inductive ForwardBody where
  | success
  | failure (error : String) (code : String)
  deriving DecidableEq, Repr

/-- The common body of the three forwarding handlers, for the webhook URL of
the handler's channel. -/
def forward {Payload : Type} (post : String → Payload → Except JsError Unit)
    (webhookUrl : Option String) (data : Payload) :
    List (String × Payload) × Response ForwardBody :=
  match sendToDiscord post webhookUrl data with
  | (posts, .ok _) => (posts, ⟨200, .success⟩)
  | (posts, .error error) =>
    if error.code = some "WEBHOOK_NOT_CONFIGURED" then
      (posts, ⟨400, .failure error.message "WEBHOOK_NOT_CONFIGURED"⟩)
    else
      (posts, ⟨500, .failure ("Failed to send Discord webhook: " ++ error.message) "DISCORD_ERROR"⟩)

/-- The notification channels. -/
inductive Channel where
  | keyTracking
  | developerActivity
  | allActivity
  deriving DecidableEq, Repr

/-- The entry of `DISCORD_WEBHOOKS` a channel's handler reads. -/
def Channel.url (hooks : DiscordWebhooks) : Channel → Option String
  | .keyTracking => hooks.keyTracking
  | .developerActivity => hooks.developerActivity
  | .allActivity => hooks.allActivity

/-- The handlers of `POST /webhook/discord/key-tracking`,
`/developer-activity` and `/all-activity`. -/
def forwardChannel {Payload : Type} (post : String → Payload → Except JsError Unit)
    (hooks : DiscordWebhooks) (channel : Channel) (data : Payload) :
    List (String × Payload) × Response ForwardBody :=
  forward post (channel.url hooks) data

/-! ## Derived notions used by the statements below -/

/-- A number that is not below `n`: `NaN`, `+Infinity`, or a finite number
`r` with `n ≤ r`. -/
def JsNum.NotBelow (n : ℚ) : JsNum → Prop
  | .fin r => n ≤ r
  | .posInf => True
  | .negInf => False
  | .nan => True

/-- Sequential key generation: the requests are handled in order, each with
its own readings of `Date.now()` and `Math.random()`; the result is the final
registry and the keys returned, in order. -/
def issueMany (reg : Registry) :
    List (Nat × GenerateBody × List (Fin 36)) → Registry × List String
  | [] => (reg, [])
  | (now, body, rnd) :: rest =>
    let out := generateKey reg now body rnd
    let more := issueMany out.1 rest
    (more.1, out.2.body.key :: more.2)

/-- Whether, in a sequential key generation, every returned key was absent
from the registry right before the call that returned it. -/
def issuedFresh (reg : Registry) : List (Nat × GenerateBody × List (Fin 36)) → Bool
  | [] => true
  | (now, body, rnd) :: rest =>
    (mapGet reg.validKeys (generateKey reg now body rnd).2.body.key).isNone &&
      issuedFresh (generateKey reg now body rnd).1 rest

/-- What a key-generation request draws: the string printed for its tier
(`BASIC` when absent) and the random id. -/
def drawOf (r : Nat × GenerateBody × List (Fin 36)) : String × String :=
  ((r.2.1.tier.getD (.str "BASIC")).print, keyIdOf r.2.2)

/-- The three keys of `DEFAULT_KEYS`, split at their last hyphen. -/
def bootstrapDraws : List (String × String) :=
  [("DEVELOPER-LIFETIME", "2025"), ("PREMIUM", "30DAYS"), ("BASIC", "11H")]

/-- A tier that is not a string but prints as one of the two lifetime labels,
such as the array `['DEVELOPER']`. -/
def Tier.lifetimeLookalike : Tier → Bool
  | .str _ => false
  | .nonString printed => printed = "DEVELOPER" || printed = "LIFETIME"

/-- A key-generation request whose tier is a lifetime lookalike. -/
def Request.lookalike : Request → Bool
  | .generateKey _ body _ => (body.tier.getD (.str "BASIC")).lifetimeLookalike
  | _ => false

/-- The registry booted at `Date.now() = 1799999990000` after one request
`{tier: 'BASIC', duration: -500000}` handled at `Date.now() = 1800000000000`
with `Math.random()` printing `0.abc`. -/
def zeroExpiryRegistry : Registry :=
  (generateKey (bootstrap (fun _ => 1799999990000)) 1800000000000
    ⟨some (.str "BASIC"), some (.fin (-500000))⟩ [10, 11, 12]).1

/-- The registry booted at `Date.now() = 1799999990000` after one request
`{duration: 2450000000}` handled at `Date.now() = 1800000000000` with
`Math.random()` printing `0.abc`. -/
def farExpiryRegistry : Registry :=
  (generateKey (bootstrap (fun _ => 1799999990000)) 1800000000000
    ⟨none, some (.fin 2450000000)⟩ [10, 11, 12]).1

/-- The registry booted at `Date.now() = 1799999990000` after the request
`{tier: ['DEVELOPER']}` handled at `Date.now() = 1800000000000` and the
request `{tier: 'DEVELOPER'}` handled at `Date.now() = 1800000000500`, with
`Math.random()` printing `0.abc` both times. -/
def staleExpiryRegistry : Registry :=
  [Request.generateKey 1800000000000 ⟨some (.nonString "DEVELOPER"), none⟩ [10, 11, 12],
   Request.generateKey 1800000000500 ⟨some (.str "DEVELOPER"), none⟩ [10, 11, 12]].foldl
    handle (bootstrap (fun _ => 1799999990000))

/-- The annotation the listing gives an entry when every stored expiry is a
valid, non-zero time value. -/
def expectedView (reg : Registry) (now : Nat) (e : String × KeyData) : KeyView :=
  match mapGet reg.keyExpiry e.1 with
  | some t =>
    ⟨e.1, e.2.tier, e.2.isLifetime,
      (match toISOString t with
       | .ok expiresAt => expiresAt
       | .error _ => .never),
      JsNum.gt (JsNum.ofNat now) t⟩
  | none => ⟨e.1, e.2.tier, e.2.isLifetime, .never, false⟩

/-- What holds of the two maps in every reachable registry. -/
structure Inv (reg : Registry) : Prop where
  no_empty_key : mapGet reg.validKeys "" = none
  expiry_of_not_lifetime : ∀ k d, mapGet reg.validKeys k = some d → d.isLifetime = false →
    (mapGet reg.keyExpiry k).isSome = true
  present_of_expiry : ∀ k, (mapGet reg.keyExpiry k).isSome = true →
    (mapGet reg.validKeys k).isSome = true

/-- What holds in addition when no request carried a lifetime lookalike as its
tier. -/
structure StrongInv (reg : Registry) : Prop where
  not_lifetime_of_expiry : ∀ k, (mapGet reg.keyExpiry k).isSome = true →
    ∃ d, mapGet reg.validKeys k = some d ∧ d.isLifetime = false
  expiry_shape : ∀ k, (mapGet reg.keyExpiry k).isSome = true →
    ∃ t rnd, k = t ++ "-" ++ keyIdOf rnd ∧ t ≠ "DEVELOPER" ∧ t ≠ "LIFETIME"

/-- The key built from a draw: tier string, hyphen, id. -/
def drawKey (d : String × String) : String := d.1 ++ "-" ++ d.2

/-! ## Lemmas about numbers -/

theorem roundDouble_intCast (n : ℤ) (h : n.natAbs ≤ 2 ^ 53) : roundDouble (n : ℚ) = .fin n := by
  unfold roundDouble
  rw [if_pos]
  exact ⟨by simp, by simpa using h⟩

theorem roundDouble_natCast (n : ℕ) (h : n ≤ 2 ^ 53) : roundDouble (n : ℚ) = .fin n := by
  have := roundDouble_intCast (n : ℤ) (by simpa using h)
  simpa using this

theorem ofNat_eq_fin (n : ℕ) (h : n ≤ 2 ^ 53) : JsNum.ofNat n = .fin n :=
  roundDouble_natCast n h

theorem floorLog2_le (a : ℚ) (ha : 0 < a) : (2 : ℚ) ^ floorLog2 a ≤ a := by
  unfold floorLog2
  simp only
  split_ifs with h
  · exact h
  · have hnum : 0 < a.num := Rat.num_pos.mpr ha
    have hn0 : a.num.natAbs ≠ 0 := by
      intro h0; rw [Int.natAbs_eq_zero] at h0; omega
    have h1 : (2 : ℚ) ^ (Nat.log2 a.num.natAbs) ≤ (a.num.natAbs : ℚ) := by
      exact_mod_cast Nat.log2_self_le hn0
    have h2 : (a.den : ℚ) < (2 : ℚ) ^ (Nat.log2 a.den + 1) := by
      exact_mod_cast (Nat.lt_log2_self : a.den < 2 ^ (a.den.log2 + 1))
    have hden : (0 : ℚ) < a.den := by exact_mod_cast a.den_pos
    have hnumabs : (a.num.natAbs : ℚ) = a.num := by
      rw [Nat.cast_natAbs, abs_of_pos hnum]
    have hmul : a * a.den = a.num := Rat.mul_den_eq_num a
    have hpos : (0 : ℚ) < (2 : ℚ) ^ (Nat.log2 a.den + 1) := by positivity
    rw [show ((Nat.log2 a.num.natAbs : ℤ) - (Nat.log2 a.den : ℤ) - 1)
        = (Nat.log2 a.num.natAbs : ℤ) - ((Nat.log2 a.den + 1 : ℕ) : ℤ) by push_cast; ring]
    rw [zpow_sub₀ (by norm_num : (2 : ℚ) ≠ 0), zpow_natCast, zpow_natCast]
    rw [div_le_iff₀ hpos]
    calc (2 : ℚ) ^ a.num.natAbs.log2
        ≤ (a.num.natAbs : ℚ) := h1
      _ = a * a.den := by rw [hnumabs, hmul]
      _ ≤ a * 2 ^ (a.den.log2 + 1) := mul_le_mul_of_nonneg_left h2.le ha.le

theorem le_roundHalfEven (x : ℚ) (N : ℕ) (h : (N : ℚ) ≤ x) : N ≤ roundHalfEven x := by
  have hf : N ≤ ⌊x⌋₊ := Nat.le_floor h
  unfold roundHalfEven
  simp only
  split_ifs <;> omega

theorem roundDouble_notBelow (n : ℕ) (hn : n ≤ 2 ^ 53) (q : ℚ) (h : (n : ℚ) ≤ q) :
    JsNum.NotBelow n (roundDouble q) := by
  have hq0 : (0 : ℚ) ≤ q := le_trans (Nat.cast_nonneg n) h
  have hnot : ¬ q < 0 := not_lt.mpr hq0
  by_cases hfast : q.den = 1 ∧ q.num.natAbs ≤ 2 ^ 53
  · unfold roundDouble
    rw [if_pos hfast]
    exact h
  · unfold roundDouble
    rw [if_neg hfast]
    simp only [hnot, if_false]
    split_ifs with hover
    · trivial
    show (n : ℚ) ≤ _
    rw [abs_of_nonneg hq0]
    have hqpos : 0 < q := by
      rcases hq0.lt_or_eq with hlt | heq
      · exact hlt
      · exfalso; apply hfast; rw [← heq]; simp
    by_cases hu : max (floorLog2 q - 52) (-1074) ≤ 0
    · -- the unit in the last place is at most one: `n` is a multiple of it
      obtain ⟨k, hk⟩ : ∃ k : ℕ, max (floorLog2 q - 52) (-1074) = -(k : ℤ) :=
        ⟨(-(max (floorLog2 q - 52) (-1074))).toNat, by
          rw [Int.toNat_of_nonneg (by omega)]; ring⟩
      rw [hk]
      have h2 : (2 : ℚ) ^ (-(k : ℤ)) = ((2 : ℚ) ^ k)⁻¹ := by
        rw [zpow_neg, zpow_natCast]
      have hpk : (0 : ℚ) < (2 : ℚ) ^ k := by positivity
      rw [h2, div_inv_eq_mul]
      have hle : n * 2 ^ k ≤ roundHalfEven (q * 2 ^ k) := by
        apply le_roundHalfEven
        push_cast
        exact mul_le_mul_of_nonneg_right h hpk.le
      have hle' : ((n * 2 ^ k : ℕ) : ℚ) ≤ (roundHalfEven (q * 2 ^ k) : ℚ) := by
        exact_mod_cast hle
      push_cast at hle'
      rw [le_mul_inv_iff₀ hpk]
      exact hle'
    · -- the value is at least `2 ^ 53`
      have hu' : 0 < max (floorLog2 q - 52) (-1074) := not_le.mp hu
      have hmax : max (floorLog2 q - 52) (-1074) = floorLog2 q - 52 := by
        apply max_eq_left; omega
      rw [hmax] at hu' ⊢
      obtain ⟨k, hk⟩ : ∃ k : ℕ, floorLog2 q - 52 = (k : ℤ) :=
        ⟨(floorLog2 q - 52).toNat, by rw [Int.toNat_of_nonneg (by omega)]⟩
      have hk1 : 1 ≤ k := by omega
      have hfl : floorLog2 q = ((52 + k : ℕ) : ℤ) := by push_cast; omega
      have hlog := floorLog2_le q hqpos
      rw [hfl, zpow_natCast] at hlog
      rw [hk, zpow_natCast]
      have hpk : (0 : ℚ) < (2 : ℚ) ^ k := by positivity
      have hle : 2 ^ 52 ≤ roundHalfEven (q / 2 ^ k) := by
        apply le_roundHalfEven
        rw [le_div_iff₀ hpk]
        push_cast
        calc (2 : ℚ) ^ 52 * 2 ^ k = 2 ^ (52 + k) := by rw [pow_add]
          _ ≤ q := hlog
      have hle' : ((2 ^ 52 : ℕ) : ℚ) ≤ (roundHalfEven (q / 2 ^ k) : ℚ) := by
        exact_mod_cast hle
      have h2k : (2 : ℚ) ≤ 2 ^ k := by
        calc (2 : ℚ) = 2 ^ 1 := by norm_num
          _ ≤ 2 ^ k := pow_le_pow_right₀ (by norm_num) hk1
      have hn' : (n : ℚ) ≤ 2 ^ 53 := by exact_mod_cast hn
      calc (n : ℚ) ≤ 2 ^ 53 := hn'
        _ = ((2 ^ 52 : ℕ) : ℚ) * 2 := by norm_num
        _ ≤ (roundHalfEven (q / 2 ^ k) : ℚ) * 2 ^ k :=
          mul_le_mul hle' h2k (by norm_num) (by positivity)

theorem mul_fin_notBelow_zero (x : JsNum) (c : ℚ) (hc : 0 < c) (h : JsNum.NotBelow 0 x) :
    JsNum.NotBelow 0 (JsNum.mul x (.fin c)) := by
  cases x with
  | fin a =>
    have ha : (0 : ℚ) ≤ a := h
    have := roundDouble_notBelow 0 (by norm_num) (a * c) (by
      simpa using mul_nonneg ha hc.le)
    simpa [JsNum.mul] using this
  | posInf => simp [JsNum.mul, JsNum.scaleInf, hc, hc.ne', JsNum.NotBelow]
  | negInf => exact absurd h (by simp [JsNum.NotBelow])
  | nan => simp [JsNum.mul, JsNum.NotBelow]

theorem add_fin_notBelow (n : ℕ) (hn : n ≤ 2 ^ 53) (x : JsNum) (h : JsNum.NotBelow 0 x) :
    JsNum.NotBelow n (JsNum.add (.fin n) x) := by
  cases x with
  | fin a =>
    have ha : (0 : ℚ) ≤ a := h
    have := roundDouble_notBelow n hn (n + a) (by linarith)
    simpa [JsNum.add] using this
  | posInf => simp [JsNum.add, JsNum.NotBelow]
  | negInf => exact absurd h (by simp [JsNum.NotBelow])
  | nan => simp [JsNum.add, JsNum.NotBelow]

theorem gt_false_of_notBelow (n : ℚ) (x : JsNum) (h : JsNum.NotBelow n x) :
    JsNum.gt (.fin n) x = false := by
  cases x with
  | fin a =>
    have ha : n ≤ a := h
    simp [JsNum.gt, not_lt.mpr ha]
  | posInf => rfl
  | negInf => exact absurd h (by simp [JsNum.NotBelow])
  | nan => rfl

theorem notBelow_zero_of_not_gt (x : JsNum) (h : JsNum.gt (.fin 0) x = false) :
    JsNum.NotBelow 0 x := by
  cases x with
  | fin a =>
    have : ¬ a < 0 := by simpa [JsNum.gt] using h
    exact not_lt.mp this
  | posInf => trivial
  | negInf => simp [JsNum.gt] at h
  | nan => trivial

/-! ## Lemmas about `Map` -/

theorem mapGet_mapSet_same {α : Type} (m : List (String × α)) (k : String) (v : α) :
    mapGet (mapSet m k v) k = some v := by
  induction m with
  | nil => simp [mapSet, mapGet]
  | cons e rest ih =>
    obtain ⟨k', v'⟩ := e
    by_cases h : k' = k
    · simp [mapSet, mapGet, h]
    · simp [mapSet, mapGet, h, ih]

theorem mapGet_mapSet_other {α : Type} (m : List (String × α)) (k k₂ : String) (v : α)
    (hne : k₂ ≠ k) : mapGet (mapSet m k v) k₂ = mapGet m k₂ := by
  induction m with
  | nil =>
    have : ¬ k = k₂ := fun h => hne h.symm
    simp [mapSet, mapGet, this]
  | cons e rest ih =>
    obtain ⟨k', v'⟩ := e
    by_cases h : k' = k
    · subst h
      have : ¬ k' = k₂ := fun h => hne h.symm
      simp [mapSet, mapGet, this]
    · by_cases h2 : k' = k₂
      · subst h2
        simp [mapSet, mapGet, h]
      · simp [mapSet, mapGet, h, h2, ih]

theorem mapGet_mapSet_isSome {α : Type} (m : List (String × α)) (k t : String) (v : α)
    (h : (mapGet m t).isSome = true) : (mapGet (mapSet m k v) t).isSome = true := by
  by_cases ht : t = k
  · subst ht; rw [mapGet_mapSet_same]; rfl
  · rw [mapGet_mapSet_other _ _ _ _ ht]; exact h

theorem mapGet_eq_none_iff {α : Type} (m : List (String × α)) (k : String) :
    mapGet m k = none ↔ k ∉ m.map Prod.fst := by
  induction m with
  | nil => simp [mapGet]
  | cons e rest ih =>
    obtain ⟨k', v'⟩ := e
    by_cases h : k' = k
    · simp [mapGet, h]
    · have h' : ¬ k = k' := fun he => h he.symm
      simp [mapGet, h, h', ih]

theorem keys_mapSet_of_absent {α : Type} (m : List (String × α)) (k : String) (v : α)
    (h : mapGet m k = none) : (mapSet m k v).map Prod.fst = m.map Prod.fst ++ [k] := by
  induction m with
  | nil => simp [mapSet]
  | cons e rest ih =>
    obtain ⟨k', v'⟩ := e
    by_cases hk : k' = k
    · simp [mapGet, hk] at h
    · simp only [mapGet, hk, if_false] at h
      simp [mapSet, hk, ih h]

/-! ## Lemmas about generated keys -/

theorem base36Upper_ne_hyphen (d : Fin 36) : base36Upper.getD d.val '0' ≠ '-' := by
  revert d; decide

theorem keyIdOf_no_hyphen (rnd : List (Fin 36)) : '-' ∉ (keyIdOf rnd).data := by
  simp only [keyIdOf, List.mem_map, not_exists, not_and]
  intro d _ h
  exact base36Upper_ne_hyphen d h

theorem hyphen_split_unique (t₁ t₂ i₁ i₂ : List Char) (h₁ : '-' ∉ i₁) (h₂ : '-' ∉ i₂)
    (h : t₁ ++ '-' :: i₁ = t₂ ++ '-' :: i₂) : t₁ = t₂ := by
  induction t₁ generalizing t₂ with
  | nil =>
    cases t₂ with
    | nil => rfl
    | cons c t₂ =>
      simp only [List.nil_append, List.cons_append, List.cons.injEq] at h
      exact absurd (h.2 ▸ (by simp : '-' ∈ t₂ ++ '-' :: i₂)) h₁
  | cons c t₁ ih =>
    cases t₂ with
    | nil =>
      simp only [List.nil_append, List.cons_append, List.cons.injEq] at h
      exact absurd (h.2 ▸ (by simp : '-' ∈ t₁ ++ '-' :: i₁)) h₂
    | cons c₂ t₂ =>
      simp only [List.cons_append, List.cons.injEq] at h
      rw [h.1, ih t₂ h.2]

theorem newKey_data (tier keyId : String) :
    (tier ++ "-" ++ keyId).data = tier.data ++ '-' :: keyId.data := by
  simp [String.data_append]

/-- A key determines the pair it was built from when the ids have no
hyphen. -/
theorem newKey_injective (t₁ t₂ i₁ i₂ : String) (h₁ : '-' ∉ i₁.data) (h₂ : '-' ∉ i₂.data)
    (h : t₁ ++ "-" ++ i₁ = t₂ ++ "-" ++ i₂) : t₁ = t₂ ∧ i₁ = i₂ := by
  have hd := congrArg String.data h
  rw [newKey_data, newKey_data] at hd
  have ht := hyphen_split_unique _ _ _ _ h₁ h₂ hd
  rw [ht] at hd
  have hi := List.append_cancel_left hd
  simp only [List.cons.injEq, true_and] at hi
  exact ⟨String.ext ht, String.ext hi⟩

theorem newKey_tier_unique (t₁ t₂ : String) (r₁ r₂ : List (Fin 36))
    (h : t₁ ++ "-" ++ keyIdOf r₁ = t₂ ++ "-" ++ keyIdOf r₂) : t₁ = t₂ :=
  (newKey_injective _ _ _ _ (keyIdOf_no_hyphen r₁) (keyIdOf_no_hyphen r₂) h).1

theorem newKey_ne_empty (tier keyId : String) : tier ++ "-" ++ keyId ≠ "" := by
  intro h
  have hd := congrArg String.data h
  rw [newKey_data] at hd
  simp at hd

theorem generateKey_key (reg : Registry) (now : Nat) (body : GenerateBody)
    (rnd : List (Fin 36)) :
    (generateKey reg now body rnd).2.body.key
      = (body.tier.getD (.str "BASIC")).print ++ "-" ++ keyIdOf rnd :=
  rfl

theorem generateKey_validKeys (reg : Registry) (now : Nat) (body : GenerateBody)
    (rnd : List (Fin 36)) :
    ∃ d, (generateKey reg now body rnd).1.validKeys
        = mapSet reg.validKeys ((body.tier.getD (.str "BASIC")).print ++ "-" ++ keyIdOf rnd) d ∧
      d.tier = body.tier.getD (.str "BASIC") ∧
      d.isLifetime = isLifetimeTier (body.tier.getD (.str "BASIC")) :=
  ⟨_, rfl, rfl, rfl⟩

/-! ## Invariants of the reachable registries -/

theorem bootstrap_eq (clock : String → Nat) :
    bootstrap clock =
      ⟨DEFAULT_KEYS,
       [("PREMIUM-30DAYS", JsNum.add (JsNum.ofNat (clock "PREMIUM-30DAYS"))
          (JsNum.mul (.fin (30 * 24 * 60 * 60)) (.fin 1000))),
        ("BASIC-11H", JsNum.add (JsNum.ofNat (clock "BASIC-11H"))
          (JsNum.mul (.fin (11 * 60 * 60)) (.fin 1000)))]⟩ := by
  rfl

theorem inv_bootstrap (clock : String → Nat) : Inv (bootstrap clock) := by
  rw [bootstrap_eq]
  refine ⟨?_, ?_, ?_⟩
  · show mapGet DEFAULT_KEYS "" = none
    decide
  · intro k d hk hl
    by_cases h1 : "PREMIUM-30DAYS" = k
    · simp [mapGet, h1]
    · by_cases h2 : "BASIC-11H" = k
      · simp [mapGet, h1, h2]
      · by_cases h3 : "DEVELOPER-LIFETIME-2025" = k
        · subst h3
          simp [mapGet, DEFAULT_KEYS] at hk
          rw [← hk] at hl
          simp at hl
        · simp [mapGet, DEFAULT_KEYS, h1, h2, h3] at hk
  · intro k hk
    by_cases h1 : "PREMIUM-30DAYS" = k
    · subst h1; simp [mapGet, DEFAULT_KEYS]
    · by_cases h2 : "BASIC-11H" = k
      · subst h2; simp [mapGet, DEFAULT_KEYS]
      · simp [mapGet, h1, h2] at hk

theorem strongInv_bootstrap (clock : String → Nat) : StrongInv (bootstrap clock) := by
  rw [bootstrap_eq]
  refine ⟨?_, ?_⟩
  · intro k hk
    by_cases h1 : "PREMIUM-30DAYS" = k
    · subst h1; simp [mapGet, DEFAULT_KEYS]
    · by_cases h2 : "BASIC-11H" = k
      · subst h2; simp [mapGet, DEFAULT_KEYS]
      · simp [mapGet, h1, h2] at hk
  · intro k hk
    by_cases h1 : "PREMIUM-30DAYS" = k
    · exact ⟨"PREMIUM", [3, 0, 13, 10, 34, 28], by subst h1; decide, by decide, by decide⟩
    · by_cases h2 : "BASIC-11H" = k
      · exact ⟨"BASIC", [1, 1, 17], by subst h2; decide, by decide, by decide⟩
      · simp [mapGet, h1, h2] at hk

theorem inv_generateKey (reg : Registry) (now : Nat) (body : GenerateBody)
    (rnd : List (Fin 36)) (h : Inv reg) : Inv (generateKey reg now body rnd).1 := by
  obtain ⟨hempty, hexp, hpres⟩ := h
  refine ⟨?_, ?_, ?_⟩
  · simp only [generateKey]
    rw [mapGet_mapSet_other _ _ _ _ (newKey_ne_empty _ _).symm]
    exact hempty
  · intro k d hk hl
    by_cases hkey : k = (body.tier.getD (.str "BASIC")).print ++ "-" ++ keyIdOf rnd
    · subst hkey
      simp only [generateKey, mapGet_mapSet_same, Option.some.injEq] at hk
      rw [← hk] at hl
      simp only at hl
      simp [generateKey, hl, mapGet_mapSet_same]
    · simp only [generateKey, mapGet_mapSet_other _ _ _ _ hkey] at hk
      have := hexp k d hk hl
      simp only [generateKey]
      split_ifs
      · exact mapGet_mapSet_isSome _ _ _ _ this
      · exact this
  · intro k hk
    simp only [generateKey] at hk ⊢
    by_cases hkey : k = (body.tier.getD (.str "BASIC")).print ++ "-" ++ keyIdOf rnd
    · subst hkey; rw [mapGet_mapSet_same]; rfl
    · apply mapGet_mapSet_isSome
      apply hpres
      split_ifs at hk
      · rwa [mapGet_mapSet_other _ _ _ _ hkey] at hk
      · exact hk

theorem inv_handle (reg : Registry) (req : Request) (h : Inv reg) : Inv (handle reg req) := by
  cases req with
  | verify now key => exact h
  | generateKey now body rnd => exact inv_generateKey reg now body rnd h
  | keys now => exact h

theorem inv_foldl (reqs : List Request) (reg : Registry) (h : Inv reg) :
    Inv (reqs.foldl handle reg) := by
  induction reqs generalizing reg with
  | nil => exact h
  | cons req reqs ih => exact ih _ (inv_handle reg req h)

theorem inv_of_reachable (reg : Registry) (h : Reachable reg) : Inv reg := by
  obtain ⟨clock, reqs, rfl⟩ := h
  exact inv_foldl reqs _ (inv_bootstrap clock)

theorem print_ne_label (tier : Tier) (hl : isLifetimeTier tier = false)
    (hk : tier.lifetimeLookalike = false) :
    tier.print ≠ "DEVELOPER" ∧ tier.print ≠ "LIFETIME" := by
  cases tier with
  | str s => simpa [isLifetimeTier, Tier.print] using hl
  | nonString p => simpa [Tier.lifetimeLookalike, Tier.print] using hk

theorem print_eq_label (tier : Tier) (hl : isLifetimeTier tier = true) :
    tier.print = "DEVELOPER" ∨ tier.print = "LIFETIME" := by
  cases tier with
  | str s => simpa [isLifetimeTier, Tier.print] using hl
  | nonString p => simp [isLifetimeTier] at hl

theorem strongInv_generateKey (reg : Registry) (now : Nat) (body : GenerateBody)
    (rnd : List (Fin 36)) (hk : (body.tier.getD (.str "BASIC")).lifetimeLookalike = false)
    (h : StrongInv reg) : StrongInv (generateKey reg now body rnd).1 := by
  obtain ⟨hnl, hshape⟩ := h
  cases hl : isLifetimeTier (body.tier.getD (.str "BASIC")) with
  | true =>
    have habs : mapGet reg.keyExpiry
        ((body.tier.getD (.str "BASIC")).print ++ "-" ++ keyIdOf rnd) = none := by
      cases hg : mapGet reg.keyExpiry
          ((body.tier.getD (.str "BASIC")).print ++ "-" ++ keyIdOf rnd) with
      | none => rfl
      | some e =>
        obtain ⟨t, r, hkey, ht1, ht2⟩ := hshape _ (by rw [hg]; rfl)
        have := newKey_tier_unique _ _ _ _ hkey
        rcases print_eq_label _ hl with h1 | h1
        · exact absurd (this ▸ h1) ht1
        · exact absurd (this ▸ h1) ht2
    have hexp : (generateKey reg now body rnd).1.keyExpiry = reg.keyExpiry := by
      simp [generateKey, hl]
    have hvk : (generateKey reg now body rnd).1.validKeys
        = mapSet reg.validKeys ((body.tier.getD (.str "BASIC")).print ++ "-" ++ keyIdOf rnd)
            ⟨body.tier.getD (.str "BASIC"), true, .null⟩ := by
      simp [generateKey, hl]
    refine ⟨?_, ?_⟩
    · intro k hke
      rw [hexp] at hke
      rw [hvk]
      have hne : k ≠ (body.tier.getD (.str "BASIC")).print ++ "-" ++ keyIdOf rnd := by
        intro he; rw [he, habs] at hke; simp at hke
      rw [mapGet_mapSet_other _ _ _ _ hne]
      exact hnl k hke
    · intro k hke
      rw [hexp] at hke
      exact hshape k hke
  | false =>
    refine ⟨?_, ?_⟩
    · intro k hke
      by_cases hkey : k = (body.tier.getD (.str "BASIC")).print ++ "-" ++ keyIdOf rnd
      · subst hkey
        simp [generateKey, hl, mapGet_mapSet_same]
      · simp only [generateKey, hl] at hke ⊢
        rw [mapGet_mapSet_other _ _ _ _ hkey]
        refine hnl k ?_
        simpa [mapGet_mapSet_other _ _ _ _ hkey] using hke
    · intro k hke
      by_cases hkey : k = (body.tier.getD (.str "BASIC")).print ++ "-" ++ keyIdOf rnd
      · exact ⟨_, rnd, hkey, print_ne_label _ hl hk⟩
      · simp only [generateKey, hl] at hke
        refine hshape k ?_
        simpa [mapGet_mapSet_other _ _ _ _ hkey] using hke

theorem strongInv_foldl (reqs : List Request) (reg : Registry)
    (hreqs : ∀ r ∈ reqs, r.lookalike = false) (h : StrongInv reg) :
    StrongInv (reqs.foldl handle reg) := by
  induction reqs generalizing reg with
  | nil => exact h
  | cons req reqs ih =>
    have hreq := hreqs req (List.mem_cons_self _ _)
    refine ih _ (fun r hr => hreqs r (List.mem_cons_of_mem _ hr)) ?_
    cases req with
    | verify now key => exact h
    | generateKey now body rnd => exact strongInv_generateKey reg now body rnd hreq h
    | keys now => exact h

/-! ## Exact arithmetic on small integers -/

theorem mul_fin_intCast (a b : ℤ) (h : (a * b).natAbs ≤ 2 ^ 53) :
    JsNum.mul (.fin a) (.fin b) = .fin ((a * b : ℤ) : ℚ) := by
  have := roundDouble_intCast (a * b) h
  simpa [JsNum.mul] using this

theorem add_fin_intCast (a b : ℤ) (h : (a + b).natAbs ≤ 2 ^ 53) :
    JsNum.add (.fin a) (.fin b) = .fin ((a + b : ℤ) : ℚ) := by
  have := roundDouble_intCast (a + b) h
  simpa [JsNum.add] using this

/-- The seconds and the expiry instant the generate-key handler computes for
an integer duration `D` at time `now`, when `|D| * 3600000 + now ≤ 2 ^ 53`:
every intermediate result is an integer of magnitude at most `2 ^ 53`, so no
operation rounds. -/
theorem generate_arith_exact (now : ℕ) (D : ℤ) (hb : D.natAbs * 3600000 + now ≤ 2 ^ 53) :
    JsNum.mul (JsNum.mul (.fin D) (.fin 60)) (.fin 60) = .fin ((D * 3600 : ℤ) : ℚ) ∧
    JsNum.add (JsNum.ofNat now)
        (JsNum.mul (JsNum.mul (JsNum.mul (.fin D) (.fin 60)) (.fin 60)) (.fin 1000))
      = .fin (((now : ℤ) + D * 3600000 : ℤ) : ℚ) := by
  have h60 : JsNum.fin 60 = JsNum.fin ((60 : ℤ) : ℚ) := by norm_num
  have h1000 : JsNum.fin 1000 = JsNum.fin ((1000 : ℤ) : ℚ) := by norm_num
  have e1 : JsNum.mul (.fin D) (.fin 60) = .fin ((D * 60 : ℤ) : ℚ) := by
    rw [h60]; exact mul_fin_intCast D 60 (by omega)
  have e2 : JsNum.mul (.fin ((D * 60 : ℤ) : ℚ)) (.fin 60) = .fin ((D * 3600 : ℤ) : ℚ) := by
    rw [h60, mul_fin_intCast (D * 60) 60 (by omega)]
    congr 2; ring
  have e3 : JsNum.mul (.fin ((D * 3600 : ℤ) : ℚ)) (.fin 1000)
      = .fin ((D * 3600000 : ℤ) : ℚ) := by
    rw [h1000, mul_fin_intCast (D * 3600) 1000 (by omega)]
    congr 2; ring
  have e0 : JsNum.ofNat now = .fin (((now : ℤ) : ℤ) : ℚ) := by
    rw [ofNat_eq_fin now (by omega)]; simp
  refine ⟨by rw [e1, e2], ?_⟩
  rw [e1, e2, e3, e0]
  exact add_fin_intCast now (D * 3600000) (by omega)

theorem generateKey_record (reg : Registry) (now : Nat) (body : GenerateBody)
    (rnd : List (Fin 36)) :
    mapGet (generateKey reg now body rnd).1.validKeys (generateKey reg now body rnd).2.body.key
      = some ⟨body.tier.getD (.str "BASIC"), isLifetimeTier (body.tier.getD (.str "BASIC")),
          (generateKey reg now body rnd).2.body.validFor⟩ :=
  mapGet_mapSet_same _ _ _

theorem generateKey_expiry (reg : Registry) (now : Nat) (body : GenerateBody)
    (rnd : List (Fin 36)) (hl : isLifetimeTier (body.tier.getD (.str "BASIC")) = false) :
    mapGet (generateKey reg now body rnd).1.keyExpiry (generateKey reg now body rnd).2.body.key
      = some (JsNum.add (JsNum.ofNat now)
          (JsNum.mul (JsNum.mul (JsNum.mul (body.duration.getD (.fin 11)) (.fin 60)) (.fin 60))
            (.fin 1000))) ∧
    (generateKey reg now body rnd).2.body.validFor
      = .secs (JsNum.mul (JsNum.mul (body.duration.getD (.fin 11)) (.fin 60)) (.fin 60)) := by
  constructor
  · simp [generateKey, hl, mapGet_mapSet_same]
  · simp [generateKey, hl]

/-! ## Verification of keys -/

theorem reachable_bootstrap (clock : String → Nat) : Reachable (bootstrap clock) :=
  ⟨clock, [], rfl⟩

theorem reachable_generateKey (reg : Registry) (now : Nat) (body : GenerateBody)
    (rnd : List (Fin 36)) (h : Reachable reg) : Reachable (generateKey reg now body rnd).1 := by
  obtain ⟨clock, reqs, rfl⟩ := h
  exact ⟨clock, reqs ++ [.generateKey now body rnd], by simp [List.foldl_append, handle]⟩

theorem key_ne_empty_of_present (reg : Registry) (h : Inv reg) (k : String) (d : KeyData)
    (hk : mapGet reg.validKeys k = some d) : k ≠ "" := by
  intro he
  rw [he, h.no_empty_key] at hk
  exact absurd hk (by simp)

theorem truthy_str (k : String) (h : k ≠ "") : (JsVal.str k).truthy = true := by
  simp [JsVal.truthy, h]

/-- The answer of the verify handler for a key that is in the registry with a
non-lifetime record and a stored expiry. -/
theorem verify_not_lifetime (reg : Registry) (now : Nat) (k : String) (d : KeyData) (e : JsNum)
    (hne : k ≠ "") (hk : mapGet reg.validKeys k = some d) (hl : d.isLifetime = false)
    (he : mapGet reg.keyExpiry k = some e) :
    verify reg now (.str k)
      = if truthyNum (some e) && JsNum.gt (JsNum.ofNat now) e
        then ⟨200, .invalid "Key sudah kadaluarsa"⟩
        else ⟨200, .valid d.tier false d.validFor (.msOver1000 e)⟩ := by
  simp [verify, truthy_str k hne, mapGetVal, hk, he, hl]

/-- Before the stored expiry instant a non-lifetime key verifies. -/
theorem verify_before_expiry (reg : Registry) (now : Nat) (k : String) (d : KeyData) (e : ℚ)
    (hr : Reachable reg) (hnow : now ≤ 2 ^ 53) (hk : mapGet reg.validKeys k = some d)
    (hl : d.isLifetime = false) (he : mapGet reg.keyExpiry k = some (.fin e))
    (hlt : (now : ℚ) < e) :
    verify reg now (.str k) = ⟨200, .valid d.tier false d.validFor (.msOver1000 (.fin e))⟩ := by
  have hne := key_ne_empty_of_present reg (inv_of_reachable reg hr) k d hk
  rw [verify_not_lifetime reg now k d _ hne hk hl he, ofNat_eq_fin now hnow]
  have hnot : ¬ e < (now : ℚ) := not_lt.mpr hlt.le
  simp [JsNum.gt, hnot]

/-- After a stored expiry instant other than `0` a non-lifetime key is
reported expired. -/
theorem verify_after_expiry (reg : Registry) (now : Nat) (k : String) (d : KeyData) (e : ℚ)
    (hr : Reachable reg) (hnow : now ≤ 2 ^ 53) (hk : mapGet reg.validKeys k = some d)
    (hl : d.isLifetime = false) (he : mapGet reg.keyExpiry k = some (.fin e)) (hz : e ≠ 0)
    (hgt : e < (now : ℚ)) :
    verify reg now (.str k) = ⟨200, .invalid "Key sudah kadaluarsa"⟩ := by
  have hne := key_ne_empty_of_present reg (inv_of_reachable reg hr) k d hk
  rw [verify_not_lifetime reg now k d _ hne hk hl he, ofNat_eq_fin now hnow]
  simp [JsNum.gt, truthyNum, hz, hgt]

/-- The expiry instant stored for the bootstrap key `BASIC-11H` seeded at time
`T`, a time value: `T + 39600000`. -/
theorem bootstrap_basic_expiry (clock : String → Nat)
    (hT : clock "BASIC-11H" ≤ 8640000000000000) :
    mapGet (bootstrap clock).keyExpiry "BASIC-11H"
      = some (.fin ((clock "BASIC-11H" : ℚ) + 39600000)) := by
  have h1 : JsNum.mul (.fin (11 * 60 * 60)) (.fin 1000) = .fin (((39600000 : ℤ)) : ℚ) := by
    have := mul_fin_intCast 39600 1000 (by norm_num)
    norm_num at this ⊢
    exact this
  have h0 : JsNum.ofNat (clock "BASIC-11H") = .fin (((clock "BASIC-11H" : ℤ)) : ℚ) := by
    rw [ofNat_eq_fin _ (by omega)]; simp
  rw [bootstrap_eq]
  simp only [mapGet]
  rw [if_neg (by decide), if_pos trivial, h1, h0,
    add_fin_intCast _ _ (by omega)]
  push_cast
  rfl

/-- The bootstrap key `BASIC-11H`, seeded at time `T`: expired at
`T + 39601 s`, valid at `T + 100 s`. -/
theorem verify_bootstrap_basic (clock : String → Nat)
    (hT : clock "BASIC-11H" ≤ 8640000000000000) :
    verify (bootstrap clock) (clock "BASIC-11H" + 39601 * 1000) (.str "BASIC-11H")
      = ⟨200, .invalid "Key sudah kadaluarsa"⟩ ∧
    verify (bootstrap clock) (clock "BASIC-11H" + 100 * 1000) (.str "BASIC-11H")
      = ⟨200, .valid (.str "BASIC") false (.secs (.fin (11 * 60 * 60)))
          (.msOver1000 (.fin ((clock "BASIC-11H" : ℚ) + 39600000)))⟩ := by
  have hk : mapGet (bootstrap clock).validKeys "BASIC-11H"
      = some ⟨.str "BASIC", false, .secs (.fin (11 * 60 * 60))⟩ := by
    rw [bootstrap_eq]; simp [mapGet, DEFAULT_KEYS]
  have he := bootstrap_basic_expiry clock hT
  have hpos : (0 : ℚ) ≤ (clock "BASIC-11H" : ℚ) := Nat.cast_nonneg _
  constructor
  · have := verify_after_expiry (bootstrap clock) (clock "BASIC-11H" + 39601 * 1000)
      "BASIC-11H" _ _ (reachable_bootstrap clock) (by omega) hk rfl he
      (by linarith) (by push_cast; linarith)
    exact this
  · have := verify_before_expiry (bootstrap clock) (clock "BASIC-11H" + 100 * 1000)
      "BASIC-11H" _ _ (reachable_bootstrap clock) (by omega) hk rfl he
      (by push_cast; linarith)
    exact this

theorem reachable_zeroExpiryRegistry : Reachable zeroExpiryRegistry :=
  reachable_generateKey _ _ _ _ (reachable_bootstrap _)

theorem zeroExpiryRegistry_entry :
    mapGet zeroExpiryRegistry.validKeys "BASIC-ABC"
      = some ⟨.str "BASIC", false, .secs (.fin (-1800000000))⟩ ∧
    mapGet zeroExpiryRegistry.keyExpiry "BASIC-ABC" = some (.fin 0) := by
  have hl : isLifetimeTier ((GenerateBody.mk (some (.str "BASIC"))
      (some (.fin (-500000)))).tier.getD (.str "BASIC")) = false := by decide
  have hx := generateKey_expiry (bootstrap (fun _ => 1799999990000)) 1800000000000
    ⟨some (.str "BASIC"), some (.fin (-500000))⟩ [10, 11, 12] hl
  have hr := generateKey_record (bootstrap (fun _ => 1799999990000)) 1800000000000
    ⟨some (.str "BASIC"), some (.fin (-500000))⟩ [10, 11, 12]
  have ha := generate_arith_exact 1800000000000 (-500000) (by norm_num)
  have hkey : (generateKey (bootstrap (fun _ => 1799999990000)) 1800000000000
    ⟨some (.str "BASIC"), some (.fin (-500000))⟩ [10, 11, 12]).2.body.key = "BASIC-ABC" := by
    decide
  rw [hkey] at hx hr
  simp only [Option.getD_some] at hx hr
  norm_num at ha
  rw [hx.2, ha.1] at hr
  rw [ha.2] at hx
  exact ⟨hr, hx.1⟩

/-- C1, at the failing input: in the reachable registry `zeroExpiryRegistry`
the key `BASIC-ABC` is a non-lifetime key whose stored expiry instant is `0`,
and at every time `now`, also every `now > 0`, the verify handler answers
`valid: true` for it instead of "expired". -/
theorem C1_zero_expiry_never_expired :
    Reachable zeroExpiryRegistry ∧
    mapGet zeroExpiryRegistry.validKeys "BASIC-ABC"
      = some ⟨.str "BASIC", false, .secs (.fin (-1800000000))⟩ ∧
    mapGet zeroExpiryRegistry.keyExpiry "BASIC-ABC" = some (.fin 0) ∧
    ∀ now : Nat, verify zeroExpiryRegistry now (.str "BASIC-ABC")
      = ⟨200, .valid (.str "BASIC") false (.secs (.fin (-1800000000))) (.msOver1000 (.fin 0))⟩ := by
  obtain ⟨hk, he⟩ := zeroExpiryRegistry_entry
  refine ⟨reachable_zeroExpiryRegistry, hk, he, ?_⟩
  intro now
  rw [verify_not_lifetime zeroExpiryRegistry now "BASIC-ABC" _ _ (by decide) hk rfl he]
  simp [truthyNum]

/-- C2: in every reachable registry a key whose record has `isLifetime = true`
verifies at every time, with the record's tier, `isLifetime: true` and
`expiresAt: null`; and on the bootstrap registry `DEVELOPER-LIFETIME-2025`
verifies with tier `DEVELOPER`, `isLifetime: true`, `expiresAt: null`. -/
theorem C2_lifetime_key_always_valid (reg : Registry) (now : Nat) (k : String) (d : KeyData)
    (hr : Reachable reg) (hk : mapGet reg.validKeys k = some d) (hl : d.isLifetime = true) :
    verify reg now (.str k) = ⟨200, .valid d.tier true d.validFor .null⟩ ∧
    ∀ (clock : String → Nat) (now₂ : Nat),
      verify (bootstrap clock) now₂ (.str "DEVELOPER-LIFETIME-2025")
        = ⟨200, .valid (.str "DEVELOPER") true .undefined .null⟩ := by
  constructor
  · have hne := key_ne_empty_of_present reg (inv_of_reachable reg hr) k d hk
    simp [verify, truthy_str k hne, mapGetVal, hk, hl]
  · intro clock now₂
    rw [bootstrap_eq]
    simp [verify, JsVal.truthy, mapGetVal, mapGet, DEFAULT_KEYS]

/-- C2 at the bootstrap registry and the key `DEVELOPER-LIFETIME-2025`. -/
theorem C2_lifetime_key_always_valid_witness :
    verify (bootstrap (fun _ => 1799999990000)) 1900000000000 (.str "DEVELOPER-LIFETIME-2025")
      = ⟨200, .valid (.str "DEVELOPER") true .undefined .null⟩ :=
  (C2_lifetime_key_always_valid (bootstrap (fun _ => 1799999990000)) 1900000000000
    "DEVELOPER-LIFETIME-2025" ⟨.str "DEVELOPER", true, .undefined⟩
    (reachable_bootstrap _) (by rw [bootstrap_eq]; decide) rfl).1

/-- C3 as stated fails at the empty key: it is not in the bootstrap registry,
and the handler answers 'Key tidak ditemukan', not
'Key tidak valid atau tidak ditemukan'. -/
theorem C3_empty_key_counterexample :
    mapGetVal (bootstrap (fun _ => 1799999990000)).validKeys (.str "") = none ∧
    verify (bootstrap (fun _ => 1799999990000)) 1800000000000 (.str "")
      = ⟨200, .invalid "Key tidak ditemukan"⟩ ∧
    verify (bootstrap (fun _ => 1799999990000)) 1800000000000 (.str "")
      ≠ ⟨200, .invalid "Key tidak valid atau tidak ditemukan"⟩ := by
  refine ⟨?_, ?_, ?_⟩
  · rw [bootstrap_eq]; decide
  · simp [verify, JsVal.truthy]
  · simp [verify, JsVal.truthy]

/-- C3, amended: for every registry and every key value that is truthy (not
absent, not the empty string) and not present in the registry, the verify
handler answers with status 200, `valid: false` and the message
'Key tidak valid atau tidak ditemukan'; for a falsy key value it answers with
status 200, `valid: false` and 'Key tidak ditemukan'. -/
theorem C3_absent_key_not_found (reg : Registry) (now : Nat) (key : JsVal)
    (hn : mapGetVal reg.validKeys key = none) :
    (key.truthy = true →
      verify reg now key = ⟨200, .invalid "Key tidak valid atau tidak ditemukan"⟩) ∧
    (key.truthy = false → verify reg now key = ⟨200, .invalid "Key tidak ditemukan"⟩) := by
  constructor
  · intro ht
    simp [verify, ht, hn]
  · intro hf
    simp [verify, hf]

/-- C3, amended, at the bootstrap registry and the key `NO-SUCH-KEY`. -/
theorem C3_absent_key_not_found_witness :
    verify (bootstrap (fun _ => 1799999990000)) 1800000000000 (.str "NO-SUCH-KEY")
      = ⟨200, .invalid "Key tidak valid atau tidak ditemukan"⟩ :=
  (C3_absent_key_not_found (bootstrap (fun _ => 1799999990000)) 1800000000000
    (.str "NO-SUCH-KEY") (by rw [bootstrap_eq]; decide)).1 (by decide)

/-! ## Generation of keys -/

/-- C4 as stated fails for a negative duration: a `BASIC` key generated with
`duration: -1` at `Date.now() = 1800000000000` has the stored expiry
`1800000000000 - 3600000`, and its verification at the same instant answers
'Key sudah kadaluarsa'. -/
theorem C4_negative_duration_counterexample :
    (generateKey (bootstrap (fun _ => 1799999990000)) 1800000000000
      ⟨some (.str "BASIC"), some (.fin (-1))⟩ [10, 11, 12]).2.body.key = "BASIC-ABC" ∧
    isLifetimeTier (.str "BASIC") = false ∧
    mapGet (generateKey (bootstrap (fun _ => 1799999990000)) 1800000000000
      ⟨some (.str "BASIC"), some (.fin (-1))⟩ [10, 11, 12]).1.keyExpiry "BASIC-ABC"
      = some (.fin (1800000000000 - 3600000)) ∧
    verify (generateKey (bootstrap (fun _ => 1799999990000)) 1800000000000
      ⟨some (.str "BASIC"), some (.fin (-1))⟩ [10, 11, 12]).1 1800000000000 (.str "BASIC-ABC")
      = ⟨200, .invalid "Key sudah kadaluarsa"⟩ := by
  have hl : isLifetimeTier ((GenerateBody.mk (some (.str "BASIC"))
      (some (.fin (-1)))).tier.getD (.str "BASIC")) = false := by decide
  have hx := generateKey_expiry (bootstrap (fun _ => 1799999990000)) 1800000000000
    ⟨some (.str "BASIC"), some (.fin (-1))⟩ [10, 11, 12] hl
  have hr := generateKey_record (bootstrap (fun _ => 1799999990000)) 1800000000000
    ⟨some (.str "BASIC"), some (.fin (-1))⟩ [10, 11, 12]
  have ha := generate_arith_exact 1800000000000 (-1) (by norm_num)
  have hkey : (generateKey (bootstrap (fun _ => 1799999990000)) 1800000000000
    ⟨some (.str "BASIC"), some (.fin (-1))⟩ [10, 11, 12]).2.body.key = "BASIC-ABC" := by
    decide
  rw [hkey] at hx hr
  simp only [Option.getD_some] at hx hr
  norm_num at ha
  rw [ha.2] at hx
  have he : mapGet (generateKey (bootstrap (fun _ => 1799999990000)) 1800000000000
      ⟨some (.str "BASIC"), some (.fin (-1))⟩ [10, 11, 12]).1.keyExpiry "BASIC-ABC"
      = some (.fin (1800000000000 - 3600000)) := by
    rw [hx.1]; norm_num
  refine ⟨hkey, by decide, he, ?_⟩
  rw [verify_not_lifetime _ 1800000000000 "BASIC-ABC" _ _ (by decide) hr rfl he,
    ofNat_eq_fin _ (by norm_num)]
  simp only [truthyNum, JsNum.gt]
  norm_num

/-- C4, amended: for every registry, every non-lifetime tier and every time
`T` that is a time value: (1) for an integer duration `D` (hours) with
`|D| * 3600000 + T ≤ 2 ^ 53`, so that the handler's arithmetic does not round,
the generate-key handler run at `T` stores for the returned key the expiry
instant `T + D * 3600000` ms; (2) for every duration that is not negative
(`0 > D` is false: `D ≥ 0`, `Infinity` or `NaN`), verifying the returned key
at time `T` answers `valid: true` with that tier, `isLifetime: false` and the
stored `validFor` and expiry. -/
theorem C4_generated_key_expiry (reg : Registry) (now : Nat) (body : GenerateBody)
    (rnd : List (Fin 36)) (hl : isLifetimeTier (body.tier.getD (.str "BASIC")) = false)
    (hnow : now ≤ 8640000000000000) :
    (∀ D : ℤ, body.duration.getD (.fin 11) = .fin D → D.natAbs * 3600000 + now ≤ 2 ^ 53 →
      mapGet (generateKey reg now body rnd).1.keyExpiry
          (generateKey reg now body rnd).2.body.key
        = some (.fin ((now : ℚ) + D * 3600000))) ∧
    (JsNum.gt (.fin 0) (body.duration.getD (.fin 11)) = false →
      ∃ e, mapGet (generateKey reg now body rnd).1.keyExpiry
          (generateKey reg now body rnd).2.body.key = some e ∧
        verify (generateKey reg now body rnd).1 now
            (.str (generateKey reg now body rnd).2.body.key)
          = ⟨200, .valid (body.tier.getD (.str "BASIC")) false
              (generateKey reg now body rnd).2.body.validFor (.msOver1000 e)⟩) := by
  obtain ⟨he, _⟩ := generateKey_expiry reg now body rnd hl
  have hk := generateKey_record reg now body rnd
  rw [hl] at hk
  have hne : (generateKey reg now body rnd).2.body.key ≠ "" := newKey_ne_empty _ _
  constructor
  · intro D hD hb
    rw [he, hD, (generate_arith_exact now D hb).2]
    push_cast
    rfl
  · intro hD
    refine ⟨_, he, ?_⟩
    rw [verify_not_lifetime _ now _ _ _ hne hk rfl he]
    have h0 := notBelow_zero_of_not_gt _ hD
    have h1 := mul_fin_notBelow_zero _ 60 (by norm_num) h0
    have h2 := mul_fin_notBelow_zero _ 60 (by norm_num) h1
    have h3 := mul_fin_notBelow_zero _ 1000 (by norm_num) h2
    have h4 := add_fin_notBelow now (by omega) _ h3
    rw [ofNat_eq_fin now (by omega)]
    rw [gt_false_of_notBelow _ _ h4]
    simp

/-- C4, amended, at a `PREMIUM` request with `duration: 24` on the bootstrap
registry. -/
theorem C4_generated_key_expiry_witness :
    mapGet (generateKey (bootstrap (fun _ => 1799999990000)) 1800000000000
        ⟨some (.str "PREMIUM"), some (.fin 24)⟩ [10, 11, 12]).1.keyExpiry
        (generateKey (bootstrap (fun _ => 1799999990000)) 1800000000000
          ⟨some (.str "PREMIUM"), some (.fin 24)⟩ [10, 11, 12]).2.body.key
      = some (.fin (((1800000000000 : ℕ) : ℚ) + ((24 : ℤ) : ℚ) * 3600000)) :=
  (C4_generated_key_expiry (bootstrap (fun _ => 1799999990000)) 1800000000000
    ⟨some (.str "PREMIUM"), some (.fin 24)⟩ [10, 11, 12] (by decide) (by norm_num)).1
    24 (by norm_num) (by norm_num)

/-- C5 as stated fails: no single label decides `isLifetime`, because both
`DEVELOPER` and `LIFETIME` yield `isLifetime: true`. -/
theorem C5_single_label_counterexample :
    ¬ ∃ label : String, ∀ (reg : Registry) (now : Nat) (body : GenerateBody)
      (rnd : List (Fin 36)),
      (generateKey reg now body rnd).2.body.isLifetime = true ↔
        body.tier.getD (.str "BASIC") = .str label := by
  rintro ⟨label, h⟩
  have h1 := (h ⟨[], []⟩ 0 ⟨some (.str "DEVELOPER"), none⟩ []).1 (by decide)
  have h2 := (h ⟨[], []⟩ 0 ⟨some (.str "LIFETIME"), none⟩ []).1 (by decide)
  simp only [Option.getD_some] at h1 h2
  rw [← h1] at h2
  exact absurd h2 (by decide)

/-- C5, amended: for every requested tier (`BASIC` when absent) the
generate-key handler answers `isLifetime: true` if and only if the tier is the
string `DEVELOPER` or the string `LIFETIME`, and the record it stores under
the returned key carries that tier and the same `isLifetime`. -/
theorem C5_lifetime_iff_developer_or_lifetime (reg : Registry) (now : Nat)
    (body : GenerateBody) (rnd : List (Fin 36)) :
    ((generateKey reg now body rnd).2.body.isLifetime = true ↔
      (body.tier.getD (.str "BASIC") = .str "DEVELOPER" ∨
        body.tier.getD (.str "BASIC") = .str "LIFETIME")) ∧
    ∃ d, mapGet (generateKey reg now body rnd).1.validKeys
          (generateKey reg now body rnd).2.body.key = some d ∧
      d.tier = body.tier.getD (.str "BASIC") ∧
      d.isLifetime = (generateKey reg now body rnd).2.body.isLifetime := by
  constructor
  · show isLifetimeTier (body.tier.getD (.str "BASIC")) = true ↔ _
    cases body.tier.getD (.str "BASIC") with
    | str s => simp [isLifetimeTier]
    | nonString p => simp [isLifetimeTier]
  · exact ⟨_, mapGet_mapSet_same _ _ _, rfl, rfl⟩

/-! ## The expiry map and the registry -/

theorem reachable_staleExpiryRegistry : Reachable staleExpiryRegistry :=
  ⟨_, _, rfl⟩

/-- C6 as stated fails: after the request `{tier: ['DEVELOPER']}` answered with
`DEVELOPER-ABC` (a non-lifetime key, the array not being `===` to a label) and
the request `{tier: 'DEVELOPER'}` answered with `DEVELOPER-ABC` again, that
key is in the registry with `isLifetime = true` and still has its entry in
the expiry map. -/
theorem C6_stale_expiry_counterexample :
    Reachable staleExpiryRegistry ∧
    mapGet staleExpiryRegistry.validKeys "DEVELOPER-ABC"
      = some ⟨.str "DEVELOPER", true, .null⟩ ∧
    (mapGet staleExpiryRegistry.keyExpiry "DEVELOPER-ABC").isSome = true := by
  have hstale : staleExpiryRegistry
      = (generateKey (generateKey (bootstrap (fun _ => 1799999990000)) 1800000000000
          ⟨some (.nonString "DEVELOPER"), none⟩ [10, 11, 12]).1 1800000000500
          ⟨some (.str "DEVELOPER"), none⟩ [10, 11, 12]).1 := rfl
  have hkey₁ : (generateKey (bootstrap (fun _ => 1799999990000)) 1800000000000
      ⟨some (.nonString "DEVELOPER"), none⟩ [10, 11, 12]).2.body.key = "DEVELOPER-ABC" := by
    decide
  have hkey₂ : (generateKey (generateKey (bootstrap (fun _ => 1799999990000)) 1800000000000
      ⟨some (.nonString "DEVELOPER"), none⟩ [10, 11, 12]).1 1800000000500
      ⟨some (.str "DEVELOPER"), none⟩ [10, 11, 12]).2.body.key = "DEVELOPER-ABC" := by
    decide
  have he := (generateKey_expiry (bootstrap (fun _ => 1799999990000)) 1800000000000
    ⟨some (.nonString "DEVELOPER"), none⟩ [10, 11, 12] (by decide)).1
  have hr := generateKey_record (generateKey (bootstrap (fun _ => 1799999990000))
    1800000000000 ⟨some (.nonString "DEVELOPER"), none⟩ [10, 11, 12]).1 1800000000500
    ⟨some (.str "DEVELOPER"), none⟩ [10, 11, 12]
  rw [hkey₁] at he
  rw [hkey₂] at hr
  refine ⟨reachable_staleExpiryRegistry, ?_, ?_⟩
  · rw [hstale, hr]
    simp [isLifetimeTier, generateKey]
  · have hsame : (generateKey (generateKey (bootstrap (fun _ => 1799999990000)) 1800000000000
        ⟨some (.nonString "DEVELOPER"), none⟩ [10, 11, 12]).1 1800000000500
        ⟨some (.str "DEVELOPER"), none⟩ [10, 11, 12]).1.keyExpiry
        = (generateKey (bootstrap (fun _ => 1799999990000)) 1800000000000
          ⟨some (.nonString "DEVELOPER"), none⟩ [10, 11, 12]).1.keyExpiry := by
      simp [generateKey, isLifetimeTier]
    rw [hstale, hsame, he]
    rfl

/-- C6, amended: in every registry reached from bootstrap by verify,
generate-key and list requests, every key that is in `validKeys` with
`isLifetime = false` has an entry in `keyExpiry`, and every key with an entry
in `keyExpiry` is in `validKeys`; when no generate-key request carried a tier
that is not a string but prints as `DEVELOPER` or `LIFETIME`, a key has an
entry in `keyExpiry` if and only if it is in `validKeys` with
`isLifetime = false`. -/
theorem C6_expiry_entry_iff_not_lifetime (clock : String → Nat) (reqs : List Request)
    (k : String) :
    ((∃ d, mapGet (reqs.foldl handle (bootstrap clock)).validKeys k = some d ∧
        d.isLifetime = false) →
      (mapGet (reqs.foldl handle (bootstrap clock)).keyExpiry k).isSome = true) ∧
    ((mapGet (reqs.foldl handle (bootstrap clock)).keyExpiry k).isSome = true →
      (mapGet (reqs.foldl handle (bootstrap clock)).validKeys k).isSome = true) ∧
    ((∀ r ∈ reqs, r.lookalike = false) →
      ((mapGet (reqs.foldl handle (bootstrap clock)).keyExpiry k).isSome = true ↔
        ∃ d, mapGet (reqs.foldl handle (bootstrap clock)).validKeys k = some d ∧
          d.isLifetime = false)) := by
  have hinv := inv_foldl reqs _ (inv_bootstrap clock)
  refine ⟨?_, hinv.present_of_expiry k, ?_⟩
  · rintro ⟨d, hd, hl⟩
    exact hinv.expiry_of_not_lifetime k d hd hl
  · intro hreqs
    have hs := strongInv_foldl reqs _ hreqs (strongInv_bootstrap clock)
    constructor
    · exact hs.not_lifetime_of_expiry k
    · rintro ⟨d, hd, hl⟩
      exact hinv.expiry_of_not_lifetime k d hd hl

/-- C6, amended, at the registry `zeroExpiryRegistry` and the key
`BASIC-ABC`. -/
theorem C6_expiry_entry_iff_not_lifetime_witness :
    (mapGet zeroExpiryRegistry.keyExpiry "BASIC-ABC").isSome = true ↔
      ∃ d, mapGet zeroExpiryRegistry.validKeys "BASIC-ABC" = some d ∧ d.isLifetime = false :=
  (C6_expiry_entry_iff_not_lifetime (fun _ => 1799999990000)
    [.generateKey 1800000000000 ⟨some (.str "BASIC"), some (.fin (-500000))⟩ [10, 11, 12]]
    "BASIC-ABC").2.2 (by decide)

/-! ## Uniqueness of generated keys -/

theorem drawKey_injective (d₁ d₂ : String × String) (h₁ : '-' ∉ d₁.2.data)
    (h₂ : '-' ∉ d₂.2.data) (h : drawKey d₁ = drawKey d₂) : d₁ = d₂ := by
  obtain ⟨ht, hi⟩ := newKey_injective _ _ _ _ h₁ h₂ h
  exact Prod.ext ht hi

theorem drawOf_no_hyphen (r : Nat × GenerateBody × List (Fin 36)) :
    '-' ∉ (drawOf r).2.data :=
  keyIdOf_no_hyphen _

theorem issueMany_of_distinct_draws (reqs : List (Nat × GenerateBody × List (Fin 36)))
    (reg : Registry) (ks : List (String × String)) (hids : ∀ d ∈ ks, '-' ∉ d.2.data)
    (hkeys : reg.validKeys.map Prod.fst = ks.map drawKey)
    (hnd : (ks ++ reqs.map drawOf).Nodup) :
    issuedFresh reg reqs = true ∧
    (issueMany reg reqs).2 = (reqs.map drawOf).map drawKey ∧
    (issueMany reg reqs).1.validKeys.map Prod.fst = (ks ++ reqs.map drawOf).map drawKey := by
  induction reqs generalizing reg ks with
  | nil => simp [issuedFresh, issueMany, hkeys]
  | cons r rest ih =>
    obtain ⟨now, body, rnd⟩ := r
    have hkey : (generateKey reg now body rnd).2.body.key = drawKey (drawOf (now, body, rnd)) :=
      rfl
    have hnotin : drawOf (now, body, rnd) ∉ ks := by
      intro hin
      have := List.nodup_append.mp hnd
      exact this.2.2 hin (by simp)
    have habs : mapGet reg.validKeys (drawKey (drawOf (now, body, rnd))) = none := by
      rw [mapGet_eq_none_iff, hkeys]
      intro hin
      obtain ⟨d, hd, hdk⟩ := List.mem_map.mp hin
      have := drawKey_injective d _ (hids d hd) (drawOf_no_hyphen _) hdk
      exact hnotin (this ▸ hd)
    obtain ⟨dat, hvk, _, _⟩ := generateKey_validKeys reg now body rnd
    have hkeys₂ : (generateKey reg now body rnd).1.validKeys.map Prod.fst
        = (ks ++ [drawOf (now, body, rnd)]).map drawKey := by
      rw [hvk]
      have := keys_mapSet_of_absent reg.validKeys (drawKey (drawOf (now, body, rnd))) dat habs
      rw [show (body.tier.getD (.str "BASIC")).print ++ "-" ++ keyIdOf rnd
        = drawKey (drawOf (now, body, rnd)) from rfl, this, hkeys]
      simp
    have hids₂ : ∀ d ∈ ks ++ [drawOf (now, body, rnd)], '-' ∉ d.2.data := by
      intro d hd
      rcases List.mem_append.mp hd with h | h
      · exact hids d h
      · rw [List.mem_singleton.mp h]; exact drawOf_no_hyphen _
    have hnd₂ : ((ks ++ [drawOf (now, body, rnd)]) ++ rest.map drawOf).Nodup := by
      simpa [List.append_assoc] using hnd
    obtain ⟨hf, ht, hk⟩ := ih (generateKey reg now body rnd).1 _ hids₂ hkeys₂ hnd₂
    refine ⟨?_, ?_, ?_⟩
    · simp only [issuedFresh, Bool.and_eq_true]
      refine ⟨?_, hf⟩
      rw [hkey, habs]; rfl
    · show (generateKey reg now body rnd).2.body.key
          :: (issueMany (generateKey reg now body rnd).1 rest).2 = _
      rw [ht, hkey]; rfl
    · show (issueMany (generateKey reg now body rnd).1 rest).1.validKeys.map Prod.fst = _
      rw [hk]; simp [List.append_assoc]

theorem bootstrap_keys (clock : String → Nat) :
    (bootstrap clock).validKeys.map Prod.fst = bootstrapDraws.map drawKey := by
  rw [bootstrap_eq]
  show DEFAULT_KEYS.map Prod.fst = bootstrapDraws.map drawKey
  decide

/-- C7 as stated fails: the handler never looks whether the key it builds is
already in the registry. After one `BASIC` request answered with `BASIC-ABC`,
a second `BASIC` request for which `Math.random()` prints the same digits is
answered with `BASIC-ABC` again, a key present before the call; two
issuances then return two equal tokens and add one entry. And on the
bootstrap registry a `BASIC` request for which `Math.random()` prints `0.11h`
is answered with the bootstrap key `BASIC-11H`. -/
theorem C7_repeated_token_counterexample :
    Reachable (generateKey (bootstrap (fun _ => 1799999990000)) 1800000000000
      ⟨some (.str "BASIC"), some (.fin 11)⟩ [10, 11, 12]).1 ∧
    (generateKey (generateKey (bootstrap (fun _ => 1799999990000)) 1800000000000
      ⟨some (.str "BASIC"), some (.fin 11)⟩ [10, 11, 12]).1 1800000000500
      ⟨some (.str "BASIC"), some (.fin 11)⟩ [10, 11, 12]).2.body.key = "BASIC-ABC" ∧
    (mapGet (generateKey (bootstrap (fun _ => 1799999990000)) 1800000000000
      ⟨some (.str "BASIC"), some (.fin 11)⟩ [10, 11, 12]).1.validKeys "BASIC-ABC").isSome
      = true ∧
    (issueMany (bootstrap (fun _ => 1799999990000))
      [(1800000000000, ⟨some (.str "BASIC"), some (.fin 11)⟩, [10, 11, 12]),
       (1800000000500, ⟨some (.str "BASIC"), some (.fin 11)⟩, [10, 11, 12])]).2
      = ["BASIC-ABC", "BASIC-ABC"] ∧
    (issueMany (bootstrap (fun _ => 1799999990000))
      [(1800000000000, ⟨some (.str "BASIC"), some (.fin 11)⟩, [10, 11, 12]),
       (1800000000500, ⟨some (.str "BASIC"), some (.fin 11)⟩, [10, 11, 12])]).1.validKeys.length
      = (bootstrap (fun _ => 1799999990000)).validKeys.length + 1 ∧
    (generateKey (bootstrap (fun _ => 1799999990000)) 1800000000000
      ⟨some (.str "BASIC"), some (.fin 11)⟩ [1, 1, 17]).2.body.key = "BASIC-11H" ∧
    (mapGet (bootstrap (fun _ => 1799999990000)).validKeys "BASIC-11H").isSome = true := by
  refine ⟨reachable_generateKey _ _ _ _ (reachable_bootstrap _), by decide, ?_, by decide, ?_,
    by decide, ?_⟩
  · have hr := generateKey_record (bootstrap (fun _ => 1799999990000)) 1800000000000
      ⟨some (.str "BASIC"), some (.fin 11)⟩ [10, 11, 12]
    rw [show (generateKey (bootstrap (fun _ => 1799999990000)) 1800000000000
      ⟨some (.str "BASIC"), some (.fin 11)⟩ [10, 11, 12]).2.body.key = "BASIC-ABC" by decide]
      at hr
    rw [hr]; rfl
  · simp [issueMany, generateKey, bootstrap_eq, DEFAULT_KEYS, mapSet, Tier.print, keyIdOf,
      base36Upper]
    decide
  · rw [bootstrap_eq]; decide

/-- C7, amended: the generate-key handler does not check uniqueness. For every
sequence of N issuances on the bootstrap registry in which the draws (the
string printed for the tier, the random id) are pairwise distinct and differ
from the three bootstrap keys split at their last hyphen, every returned token
is absent from the registry before its call, the N tokens are pairwise
distinct, and the N issuances add exactly N entries. -/
theorem C7_distinct_draws_fresh_tokens (clock : String → Nat)
    (reqs : List (Nat × GenerateBody × List (Fin 36)))
    (hdraws : (bootstrapDraws ++ reqs.map drawOf).Nodup) :
    issuedFresh (bootstrap clock) reqs = true ∧
    (issueMany (bootstrap clock) reqs).2.Nodup ∧
    (issueMany (bootstrap clock) reqs).1.validKeys.length
      = (bootstrap clock).validKeys.length + reqs.length := by
  have hids : ∀ d ∈ bootstrapDraws, '-' ∉ d.2.data := by decide
  obtain ⟨hf, ht, hk⟩ := issueMany_of_distinct_draws reqs (bootstrap clock) bootstrapDraws hids
    (bootstrap_keys clock) hdraws
  refine ⟨hf, ?_, ?_⟩
  · rw [ht]
    refine List.Nodup.map_on ?_ (List.nodup_append.mp hdraws).2.1
    intro d₁ h₁ d₂ h₂ heq
    obtain ⟨r₁, _, rfl⟩ := List.mem_map.mp h₁
    obtain ⟨r₂, _, rfl⟩ := List.mem_map.mp h₂
    exact drawKey_injective _ _ (drawOf_no_hyphen r₁) (drawOf_no_hyphen r₂) heq
  · have h1 := congrArg List.length hk
    have h2 := congrArg List.length (bootstrap_keys clock)
    simp only [List.length_map, List.length_append] at h1 h2
    omega

/-- C7, amended, at two issuances on the bootstrap registry that draw
`(BASIC, ABC)` and `(BASIC, ABD)`. -/
theorem C7_distinct_draws_fresh_tokens_witness :
    (issueMany (bootstrap (fun _ => 1799999990000))
      [(1800000000000, ⟨some (.str "BASIC"), some (.fin 11)⟩, [10, 11, 12]),
       (1800000000500, ⟨none, none⟩, [10, 11, 13])]).2.Nodup :=
  (C7_distinct_draws_fresh_tokens (fun _ => 1799999990000)
    [(1800000000000, ⟨some (.str "BASIC"), some (.fin 11)⟩, [10, 11, 12]),
     (1800000000500, ⟨none, none⟩, [10, 11, 13])] (by decide)).2.1

/-! ## Discord relay -/

/-- C8: for every channel whose entry of `DISCORD_WEBHOOKS` is unset or empty
and every payload, `sendToDiscord` throws the error with code
`WEBHOOK_NOT_CONFIGURED` and the channel's handler answers status 400 with
that code, which differs from `DISCORD_ERROR`; no outbound POST is performed,
whatever `axios.post` would do. -/
theorem C8_unconfigured_channel_no_post {Payload : Type}
    (post : String → Payload → Except JsError Unit) (hooks : DiscordWebhooks)
    (channel : Channel) (data : Payload) (h : urlMissing (channel.url hooks) = true) :
    sendToDiscord post (channel.url hooks) data
      = ([], .error ⟨"Discord webhook URL not configured", some "WEBHOOK_NOT_CONFIGURED"⟩) ∧
    forwardChannel post hooks channel data
      = ([], ⟨400, .failure "Discord webhook URL not configured" "WEBHOOK_NOT_CONFIGURED"⟩) ∧
    ("WEBHOOK_NOT_CONFIGURED" : String) ≠ "DISCORD_ERROR" := by
  have hs : sendToDiscord post (channel.url hooks) data
      = ([], .error ⟨"Discord webhook URL not configured", some "WEBHOOK_NOT_CONFIGURED"⟩) := by
    simp [sendToDiscord, h]
  refine ⟨hs, ?_, by decide⟩
  simp [forwardChannel, forward, hs]

/-- C8 at the key-tracking channel with an empty URL. -/
theorem C8_unconfigured_channel_no_post_witness :
    forwardChannel (fun _ _ => Except.ok ()) ⟨some "", none, some "https://discord.example/hook"⟩
        Channel.keyTracking JsVal.obj
      = ([], ⟨400, .failure "Discord webhook URL not configured" "WEBHOOK_NOT_CONFIGURED"⟩) :=
  (C8_unconfigured_channel_no_post (fun _ _ => Except.ok ())
    ⟨some "", none, some "https://discord.example/hook"⟩ Channel.keyTracking JsVal.obj
    (by decide)).2.1

/-! ## Listing of keys -/

theorem mem_of_mapGet {α : Type} (m : List (String × α)) (k : String) (v : α)
    (h : mapGet m k = some v) : (k, v) ∈ m := by
  induction m with
  | nil => simp [mapGet] at h
  | cons e rest ih =>
    obtain ⟨k', v'⟩ := e
    by_cases hk : k' = k
    · simp only [mapGet, hk, if_true, Option.some.injEq] at h
      simp [hk, h]
    · simp only [mapGet, hk, if_false] at h
      exact List.mem_cons_of_mem _ (ih h)

theorem keyView_error (reg : Registry) (now : Nat) (key : String) (data : KeyData)
    (e : String) (h : keyView reg now key data = .error e) :
    e = "RangeError: Invalid time value" := by
  unfold keyView at h
  simp only at h
  split_ifs at h
  split at h
  · cases h
  · rename_i e₂ htoISO
    cases h
    unfold toISOString at htoISO
    split at htoISO
    · split_ifs at htoISO
      cases htoISO; rfl
    · cases htoISO; rfl

theorem mapM_error_of_mem {α β : Type} (f : α → Except String β) (e₀ : String)
    (hall : ∀ y e, f y = .error e → e = e₀) (l : List α) (x : α) (hx : x ∈ l)
    (hfx : f x = .error e₀) : l.mapM f = .error e₀ := by
  induction l with
  | nil => cases hx
  | cons y rest ih =>
    rw [List.mapM_cons]
    cases hy : f y with
    | error e =>
      rw [hall y e hy]; rfl
    | ok v =>
      have hxr : x ∈ rest := by
        rcases List.mem_cons.mp hx with h | h
        · rw [h, hy] at hfx; cases hfx
        · exact h
      rw [ih hxr]; rfl

/-- The annotation of a registry entry, given the stored expiry. -/
theorem keyView_of_valid_expiry (reg : Registry) (now : Nat) (key : String) (data : KeyData) :
    (mapGet reg.keyExpiry key = none →
      keyView reg now key data = .ok ⟨key, data.tier, data.isLifetime, .never, false⟩) ∧
    (∀ q, mapGet reg.keyExpiry key = some (.fin q) → q ≠ 0 → -maxTimeValue ≤ q →
      q ≤ maxTimeValue →
      keyView reg now key data
        = .ok ⟨key, data.tier, data.isLifetime, .iso (if 0 ≤ q then ⌊q⌋ else ⌈q⌉),
            JsNum.gt (JsNum.ofNat now) (.fin q)⟩) := by
  constructor
  · intro h
    simp [keyView, h, truthyNum]
  · intro q h hz h1 h2
    simp [keyView, h, truthyNum, hz, toISOString, h1, h2]

/-- When every stored expiry is a valid, non-zero time value the listing has
one entry per registry entry, in order, annotated from the stored expiry. -/
theorem listKeys_of_valid_expiries (reg : Registry) (now : Nat)
    (h : ∀ k t, mapGet reg.keyExpiry k = some t →
      ∃ q, t = .fin q ∧ q ≠ 0 ∧ -maxTimeValue ≤ q ∧ q ≤ maxTimeValue) :
    listKeys reg now = .ok (reg.validKeys.map (expectedView reg now)) := by
  have key : ∀ l : List (String × KeyData),
      l.mapM (fun e => keyView reg now e.1 e.2) = .ok (l.map (expectedView reg now)) := by
    intro l
    induction l with
    | nil => rfl
    | cons e rest ih =>
      have he : keyView reg now e.1 e.2 = .ok (expectedView reg now e) := by
        cases hg : mapGet reg.keyExpiry e.1 with
        | none =>
          rw [(keyView_of_valid_expiry reg now e.1 e.2).1 hg]
          simp [expectedView, hg]
        | some t =>
          obtain ⟨q, rfl, hz, h1, h2⟩ := h _ _ hg
          rw [(keyView_of_valid_expiry reg now e.1 e.2).2 q hg hz h1 h2]
          simp [expectedView, hg, toISOString, h1, h2]
      rw [List.mapM_cons, he, ih]
      rfl
  exact key reg.validKeys

theorem reachable_farExpiryRegistry : Reachable farExpiryRegistry :=
  reachable_generateKey _ _ _ _ (reachable_bootstrap _)

theorem farExpiryRegistry_entry :
    mapGet farExpiryRegistry.validKeys "BASIC-ABC"
      = some ⟨.str "BASIC", false, .secs (.fin (2450000000 * 60 * 60))⟩ ∧
    mapGet farExpiryRegistry.keyExpiry "BASIC-ABC" = some (.fin 8821800000000000) := by
  have hl : isLifetimeTier ((GenerateBody.mk none
      (some (.fin 2450000000))).tier.getD (.str "BASIC")) = false := by decide
  have hx := generateKey_expiry (bootstrap (fun _ => 1799999990000)) 1800000000000
    ⟨none, some (.fin 2450000000)⟩ [10, 11, 12] hl
  have hr := generateKey_record (bootstrap (fun _ => 1799999990000)) 1800000000000
    ⟨none, some (.fin 2450000000)⟩ [10, 11, 12]
  have ha := generate_arith_exact 1800000000000 2450000000 (by norm_num)
  have hkey : (generateKey (bootstrap (fun _ => 1799999990000)) 1800000000000
    ⟨none, some (.fin 2450000000)⟩ [10, 11, 12]).2.body.key = "BASIC-ABC" := by
    decide
  rw [hkey] at hx hr
  simp only [Option.getD_some, Option.getD_none] at hx hr
  norm_num at ha
  rw [hx.2, ha.1] at hr
  rw [ha.2] at hx
  refine ⟨?_, hx.1⟩
  rw [show farExpiryRegistry = (generateKey (bootstrap (fun _ => 1799999990000)) 1800000000000
    ⟨none, some (.fin 2450000000)⟩ [10, 11, 12]).1 from rfl, hr]
  norm_num
  rfl

/-- C9, at the failing input: in the reachable registry `farExpiryRegistry`
the non-lifetime key `BASIC-ABC` has a stored expiry beyond the largest
`Date` time value, and at every time the list handler throws a `RangeError`
instead of returning entries. Moreover, in `zeroExpiryRegistry` the
non-lifetime key `BASIC-ABC` with stored expiry `0` is annotated
`expiresAt: 'Never'`, `isExpired: false` at every time. -/
theorem C9_list_throws_on_far_expiry :
    Reachable farExpiryRegistry ∧
    mapGet farExpiryRegistry.validKeys "BASIC-ABC"
      = some ⟨.str "BASIC", false, .secs (.fin (2450000000 * 60 * 60))⟩ ∧
    mapGet farExpiryRegistry.keyExpiry "BASIC-ABC" = some (.fin 8821800000000000) ∧
    (∀ now : Nat, listKeys farExpiryRegistry now = .error "RangeError: Invalid time value") ∧
    (∀ now : Nat,
      keyView zeroExpiryRegistry now "BASIC-ABC" ⟨.str "BASIC", false, .secs (.fin (-1800000000))⟩
        = .ok ⟨"BASIC-ABC", .str "BASIC", false, .never, false⟩) := by
  obtain ⟨hk, he⟩ := farExpiryRegistry_entry
  refine ⟨reachable_farExpiryRegistry, hk, he, ?_, ?_⟩
  · intro now
    refine mapM_error_of_mem _ _ (fun y e h => keyView_error _ _ _ _ e h) _ _
      (mem_of_mapGet _ _ _ hk) ?_
    simp only [keyView, he, truthyNum, toISOString, maxTimeValue, Option.getD_some]
    norm_num
  · intro now
    simp [keyView, zeroExpiryRegistry_entry.2, truthyNum]

/-! ## Malformed keys -/

/-- C10 as stated fails: for the number `5` and for an object as the key the
verify handler answers status 200 with the ordinary "not found" result, and
for the number `0` with the ordinary "missing" result; none is rejected. -/
theorem C10_non_string_key_counterexample :
    verify (bootstrap (fun _ => 1799999990000)) 1800000000000 (.num 5)
      = ⟨200, .invalid "Key tidak valid atau tidak ditemukan"⟩ ∧
    verify (bootstrap (fun _ => 1799999990000)) 1800000000000 .obj
      = ⟨200, .invalid "Key tidak valid atau tidak ditemukan"⟩ ∧
    verify (bootstrap (fun _ => 1799999990000)) 1800000000000 (.num 0)
      = ⟨200, .invalid "Key tidak ditemukan"⟩ := by
  refine ⟨?_, ?_, ?_⟩ <;> simp [verify, JsVal.truthy, mapGetVal]

/-- C10, amended: for every registry, time and key value that is not a
string, the verify handler does not reject the request; it answers status 200
with `valid: false` and the message 'Key tidak valid atau tidak ditemukan'
when the value is truthy, 'Key tidak ditemukan' when it is falsy. -/
theorem C10_non_string_key_ordinary_result (reg : Registry) (now : Nat) (key : JsVal)
    (h : ∀ s, key ≠ .str s) :
    verify reg now key
      = ⟨200, .invalid (if key.truthy then "Key tidak valid atau tidak ditemukan"
                        else "Key tidak ditemukan")⟩ := by
  cases key with
  | str s => exact absurd rfl (h s)
  | undefined => simp [verify, JsVal.truthy]
  | null => simp [verify, JsVal.truthy]
  | bool b => cases b <;> simp [verify, JsVal.truthy, mapGetVal]
  | num n =>
    by_cases hn : n = 0
    · simp [verify, JsVal.truthy, hn]
    · simp [verify, JsVal.truthy, hn, mapGetVal]
  | obj => simp [verify, JsVal.truthy, mapGetVal]

/-- C10, amended, at the key `true` on the bootstrap registry. -/
theorem C10_non_string_key_ordinary_result_witness :
    verify (bootstrap (fun _ => 1799999990000)) 1800000000000 (.bool true)
      = ⟨200, .invalid (if (JsVal.bool true).truthy then "Key tidak valid atau tidak ditemukan"
                        else "Key tidak ditemukan")⟩ :=
  C10_non_string_key_ordinary_result (bootstrap (fun _ => 1799999990000)) 1800000000000
    (.bool true) (by intro s hs; cases hs)


end AntcHub
